import Mathlib

/-!
The mod_dav_svn lock provider (`subversion/mod_dav_svn/lock.c`)

A shallow embedding of the locking vtable that mod_dav_svn hands to mod_dav,
followed by theorems about it.

Conventions of the embedding.

* C strings are `String`; a `const char *` that the code tests against `NULL`
  (or that is left `NULL` by `apr_pcalloc`) is an `Option String`.
* `apr_time_t` is a signed 64-bit count of microseconds and `time_t` is taken
  to be a signed 64-bit count of seconds; both are `Int`, and every conversion
  or product goes through `wrap64`.
* The repository filesystem, the authorization callback and the clock are not
  part of this file of the source.  The calls into them are the fields of
  `dav_svn_repos`, arbitrary functions of an arbitrary repository state, so a
  statement quantified over `dav_svn_repos` holds for every repository.
* Memory pools are dropped: `apr_pstrdup` is the identity on strings and
  `apr_pcalloc` yields the all-zero record.
* A provider function maps the world before the call to its result and the
  world after the call.
-/

namespace DavSvnLock

/-! ## Constants of httpd, mod_dav, APR and the Subversion headers -/

def HTTP_BAD_REQUEST : Nat := 400
def HTTP_UNAUTHORIZED : Nat := 401
def HTTP_FORBIDDEN : Nat := 403
def HTTP_INTERNAL_SERVER_ERROR : Nat := 500

/-- Microseconds per second, `APR_USEC_PER_SEC` of apr_time.h. -/
def APR_USEC_PER_SEC : Int := 1000000

/-- The mod_dav timeout value that stands for "never". -/
def DAV_TIMEOUT_INFINITE : Int := 0

/-- The revision number that stands for "no revision". -/
def SVN_INVALID_REVNUM : Int := -1

/-- Subversion error codes (`apr_err` of an `svn_error_t`): the three codes
lock.c compares against, and every other code. -/
inductive svn_errno where
  | SVN_ERR_FS_NO_USER
  | SVN_ERR_FS_BAD_LOCK_TOKEN
  | SVN_ERR_FS_LOCK_EXPIRED
  | other (code : Nat)
deriving DecidableEq, Repr

structure svn_error_t where
  apr_err : svn_errno
  message : String
deriving DecidableEq, Repr

/-- The `error_id` of a `dav_error`: one of the two mod_dav lock error codes
lock.c uses, or the code of a wrapped Subversion error. -/
inductive dav_error_id where
  | DAV_ERR_LOCK_UNK_STATE_TOKEN
  | DAV_ERR_LOCK_SAVE_LOCK
  | svn (apr_err : svn_errno)
deriving DecidableEq, Repr

structure dav_error where
  status : Nat
  error_id : dav_error_id
  desc : String
deriving DecidableEq, Repr

/-- The mod_dav constructor `dav_new_error(pool, status, error_id, desc)`. -/
def dav_new_error (status : Nat) (error_id : dav_error_id) (desc : String) : dav_error :=
  { status := status, error_id := error_id, desc := desc }

/-- Modelled from the spec: `dav_svn_convert_err` (util.c of mod_dav_svn, not
among the sources).  A repository error becomes an error with the status the
caller suggests and a message describing what was being attempted; the
Subversion error code is kept as the error id. -/
def dav_svn_convert_err (serr : svn_error_t) (status : Nat) (message : String) : dav_error :=
  { status := status, error_id := dav_error_id.svn serr.apr_err, desc := message }

/-! ## Machine integers -/

/-- Two's complement reduction of an integer to the signed 64-bit range. -/
def wrap64 (x : Int) : Int :=
  (x + 2 ^ 63) % 2 ^ 64 - 2 ^ 63

/-- The values of a signed 64-bit integer type (`apr_time_t`, `time_t`). -/
def int64_range (x : Int) : Prop :=
  -(2 ^ 63) ≤ x ∧ x < 2 ^ 63

instance (x : Int) : Decidable (int64_range x) := by
  unfold int64_range; infer_instance

/-! ## Data model -/

inductive dav_lock_rectype where
  | DAV_LOCKREC_DIRECT
  | DAV_LOCKREC_INDIRECT
  | DAV_LOCKREC_INDIRECT_PARTIAL
deriving DecidableEq, Repr

inductive dav_lock_scope where
  | DAV_LOCKSCOPE_UNKNOWN
  | DAV_LOCKSCOPE_EXCLUSIVE
  | DAV_LOCKSCOPE_SHARED
deriving DecidableEq, Repr

inductive dav_lock_type where
  | DAV_LOCKTYPE_UNKNOWN
  | DAV_LOCKTYPE_WRITE
deriving DecidableEq, Repr

open dav_lock_rectype dav_lock_scope dav_lock_type

/-- The repository lock record, `svn_lock_t`. -/
structure svn_lock_t where
  path : Option String
  token : String
  owner : Option String
  comment : Option String
  creation_date : Int
  expiration_date : Int
deriving DecidableEq, Repr

structure dav_locktoken where
  uuid_str : String
deriving DecidableEq, Repr

/-- The mod_dav lock record, `dav_lock`; `next` links the records of a lock
list and is `none` at its end. -/
structure dav_lock where
  rectype : dav_lock_rectype
  is_locknull : Bool
  scope : dav_lock_scope
  type : dav_lock_type
  depth : Int
  timeout : Int
  locktoken : dav_locktoken
  owner : Option String
  auth_user : Option String
  next : Option dav_lock
deriving Repr

/-- A non-empty list of lock tokens, `dav_locktoken_list`: its first token and
the tokens after it. -/
structure dav_locktoken_list where
  locktoken : dav_locktoken
  next : List dav_locktoken
deriving DecidableEq, Repr

/-- The private part of the lock database, `dav_lockdb_private`.  Its `r`, the
pointer to the request, is the `world` the functions are run in. -/
structure dav_lockdb_private where
  force : Bool
  working_revnum : Int
deriving DecidableEq, Repr

structure dav_lockdb where
  ro : Int
  info : dav_lockdb_private
deriving DecidableEq, Repr

structure dav_resource_private where
  repos_path : Option String
deriving DecidableEq, Repr

structure dav_resource where
  «exists» : Bool
  collection : Bool
  info : dav_resource_private
deriving DecidableEq, Repr

/-! ## The repository and the request, as seen from lock.c -/

structure svn_fs_root_t where
  rev : Int
deriving DecidableEq, Repr

/-- What `svn_fs_get_lock_from_token(&slock, fs, token, pool)` leaves behind:
either no error and a lock in `slock` (`refresh_locks` dereferences it
unchecked), or an error together with whatever the caller's variable `slock`
holds after the call (`none` for `NULL`), which `find_lock` goes on to test. -/
inductive token_lookup where
  | found (slock : svn_lock_t)
  | failed (serr : svn_error_t) (slock : Option svn_lock_t)
deriving DecidableEq, Repr

/-- The calls lock.c makes into the repository, the authorization callback and
the time formatter, over a repository state of type `σ`.  The two mutating
calls return the error, if any, and the repository state after the call. -/
structure dav_svn_repos (σ : Type) where
  svn_fs_youngest_rev : σ → Except svn_error_t Int
  svn_fs_revision_root : σ → Int → Except svn_error_t svn_fs_root_t
  dav_svn_authz_read : σ → svn_fs_root_t → Option String → Except svn_error_t Bool
  svn_fs_get_lock_from_path : σ → String → Except svn_error_t (Option svn_lock_t)
  svn_fs_get_lock_from_token : σ → String → token_lookup
  svn_fs_generate_token : σ → Except svn_error_t String
  svn_repos_fs_attach_lock : σ → svn_lock_t → Bool → Int → Option svn_error_t × σ
  svn_repos_fs_unlock : σ → String → Bool → Option svn_error_t × σ
  svn_time_to_cstring : Int → String

/-- A mutating call into the repository, as recorded in `world.calls`. -/
inductive repos_call where
  | attach_lock (lock : svn_lock_t) (force : Bool) (current_rev : Int)
  | unlock (token : String) (force : Bool)
deriving DecidableEq, Repr

/-- Everything a provider function can read or change: the repository state,
the clock (`apr_time_now()`), the response headers of the request, and the
record of the mutating repository calls made so far, oldest first. -/
structure world (σ : Type) where
  fs : σ
  now : Int
  headers_out : List (String × String)
  calls : List repos_call

/-- Name of the response header that carries a lock's creation date. -/
def SVN_DAV_CREATIONDATE_HEADER : String := "X-SVN-Creation-Date"

/-- Name of the request header with the options of a Subversion client
(svn_dav.h). -/
def SVN_DAV_OPTIONS_HEADER : String := "X-SVN-Options"

/-- The option by which a Subversion client asks to steal or break a lock; the
word the spec names. -/
def SVN_DAV_OPTION_FORCE : String := "force"

/-- Name of the request header with the revision the client works on
(svn_dav.h). -/
def SVN_DAV_VERSION_NAME_HEADER : String := "X-SVN-Version-Name"

/-- The part of the request `r` that `open_lockdb` reads; the response headers of
the request are in the `world`. -/
structure request_rec where
  headers_in : List (String × String)
deriving DecidableEq, Repr

/-! ## String helpers of the C library and of httpd -/

/-- Offset of the first occurrence of `needle` in `hay`, or `none` when there is
none: the position `strstr` (httpd's `ap_strstr_c`) returns a pointer to. -/
def strstr_offset (hay needle : List Char) : Option Nat :=
  if needle.isPrefixOf hay then some 0
  else match hay with
    | [] => none
    | _ :: rest => (strstr_offset rest needle).map (fun i => i + 1)

def ap_strstr_c (s : String) (c : String) : Option Nat :=
  strstr_offset s.data c.data

/-- The pointer `s + n` of a C string: the string without its first `n`
characters. -/
def str_advance (s : String) (n : Nat) : String :=
  String.mk (s.data.drop n)

/-- The C library call `strcmp` on character lists: zero for equal strings, the
difference of the first differing characters otherwise. -/
def strcmp_chars : List Char → List Char → Int
  | [], [] => 0
  | [], _ :: _ => -1
  | _ :: _, [] => 1
  | a :: as, b :: bs => if a = b then strcmp_chars as bs else (a.toNat : Int) - (b.toNat : Int)

def strcmp (a b : String) : Int :=
  strcmp_chars a.data b.data

/-- The C library call `strcasecmp`, by which APR compares the keys of a table:
`strcmp` on the two strings with the letters A to Z turned into a to z. -/
def strcasecmp (a b : String) : Int :=
  strcmp_chars (a.data.map Char.toLower) (b.data.map Char.toLower)

/-- The APR call `apr_table_setn`: the first entry with the key (compared
without regard to case) gets the value and later entries with the key are
dropped; without such an entry the pair is added at the end. -/
def apr_table_setn (t : List (String × String)) (key val : String) : List (String × String) :=
  match t.span (fun e => strcasecmp e.1 key != 0) with
  | (before, []) => before ++ [(key, val)]
  | (before, _ :: after) =>
      before ++ (key, val) :: after.filter (fun e => strcasecmp e.1 key != 0)

/-- The APR call `apr_table_get`: the value of the first entry with the key
(compared without regard to case), or `none` (the C `NULL`) without one. -/
def apr_table_get (t : List (String × String)) (key : String) : Option String :=
  (t.find? (fun e => strcasecmp e.1 key == 0)).map (fun e => e.2)

/-- The C library predicate `isspace` in the C locale: the blank and the
characters 9 to 13. -/
def isspace (c : Char) : Bool :=
  c.toNat = 32 || (9 ≤ c.toNat && c.toNat ≤ 13)

/-- The value of the longest run of decimal digits at the head of a character
list, continuing from `acc`. -/
def atol_digits (acc : Int) : List Char → Int
  | [] => acc
  | c :: rest =>
    if c.isDigit then atol_digits (acc * 10 + ((c.toNat : Int) - 48)) rest else acc

/-- Reduction to the range of a 64-bit `long`, as `strtol` does on overflow. -/
def clamp_long (x : Int) : Int :=
  if x < -(2 ^ 63) then -(2 ^ 63) else if 2 ^ 63 ≤ x then 2 ^ 63 - 1 else x

/-- The C library call `atol`: skip white space, read an optional sign and the
decimal digits that follow; anything after them is ignored and no digits at
all give 0. -/
def atol (s : String) : Int :=
  match s.data.dropWhile isspace with
  | [] => 0
  | c :: rest =>
    if c = (Char.ofNat 45) then clamp_long (-(atol_digits 0 rest))
    else if c = (Char.ofNat 43) then clamp_long (atol_digits 0 rest)
    else clamp_long (atol_digits 0 (c :: rest))

/-- The macro `SVN_STR_TO_REV` of svn_types.h: `atol` cast to `svn_revnum_t`. -/
def SVN_STR_TO_REV (str : String) : Int :=
  atol str

/-- The test `strcmp(a, b) != 0` on two string pointers.  The source applies it
to the path of a resource, already known not to be `NULL`, and the path of a
lock the repository returned; a `NULL` on either side cannot be equal to a
string and counts as a difference. -/
def paths_differ (a b : Option String) : Bool :=
  match a, b with
  | some a, some b => strcmp a b != 0
  | _, _ => true

/-! ## The two translations (lock.c, lines 49-133) -/

/-- Convert an `svn_lock_t` to a `dav_lock`; `exists_p` says whether the path of
the lock exists. -/
def svn_lock_to_dav_lock (slock : svn_lock_t) (exists_p : Bool) : dav_lock :=
  { rectype := DAV_LOCKREC_DIRECT
    scope := DAV_LOCKSCOPE_EXCLUSIVE
    type := DAV_LOCKTYPE_WRITE
    depth := 0
    is_locknull := exists_p
    locktoken := { uuid_str := slock.token }
    owner := slock.comment
    auth_user := slock.owner
    timeout :=
      if slock.expiration_date ≠ 0 then
        wrap64 ((wrap64 slock.expiration_date).tdiv APR_USEC_PER_SEC)
      else
        DAV_TIMEOUT_INFINITE
    next := none }

/-- Convert a `dav_lock` to an `svn_lock_t` on `path`; `now` is the value of
`apr_time_now()`. -/
def dav_lock_to_svn_lock (now : Int) (dlock : dav_lock) (path : Option String) :
    Except dav_error svn_lock_t :=
  if dlock.type ≠ DAV_LOCKTYPE_WRITE then
    .error (dav_new_error HTTP_BAD_REQUEST dav_error_id.DAV_ERR_LOCK_SAVE_LOCK
      "Only \x27write\x27 locks are supported.")
  else if dlock.scope ≠ DAV_LOCKSCOPE_EXCLUSIVE then
    .error (dav_new_error HTTP_BAD_REQUEST dav_error_id.DAV_ERR_LOCK_SAVE_LOCK
      "Only exclusive locks are supported.")
  else
    .ok { path := path
          token := dlock.locktoken.uuid_str
          creation_date := now
          owner := match dlock.auth_user with
            | some auth_user => some auth_user
            | none => none
          comment := match dlock.owner with
            | some owner => some owner
            | none => none
          expiration_date :=
            if dlock.timeout ≠ 0 then wrap64 (wrap64 dlock.timeout * APR_USEC_PER_SEC)
            else 0 }

/-! ## The authorization gate (lock.c, lines 137-172) -/

/-- Invoke the authorization callback on `path` in the HEAD revision. -/
def check_readability {σ : Type} (repos : dav_svn_repos σ) (w : world σ)
    (path : Option String) : Except dav_error Bool :=
  match repos.svn_fs_youngest_rev w.fs with
  | .error serr =>
      .error (dav_svn_convert_err serr HTTP_INTERNAL_SERVER_ERROR
        "Failed to get youngest filesystem revision.")
  | .ok headrev =>
    match repos.svn_fs_revision_root w.fs headrev with
    | .error serr =>
        .error (dav_svn_convert_err serr HTTP_INTERNAL_SERVER_ERROR
          "Failed to open revision root for HEAD.")
    | .ok headroot =>
      match repos.dav_svn_authz_read w.fs headroot path with
      | .error serr =>
          .error (dav_svn_convert_err serr HTTP_INTERNAL_SERVER_ERROR
            "Failed to check readability of a path.")
      | .ok readable => .ok readable

/-! ## The token codec (lock.c, lines 200-255) -/

def dav_svn_parse_locktoken (char_token : String) : Except dav_error dav_locktoken :=
  if ap_strstr_c char_token "opaquelocktoken:" ≠ some 0 then
    .error (dav_new_error HTTP_BAD_REQUEST dav_error_id.DAV_ERR_LOCK_UNK_STATE_TOKEN
      "Client supplied lock token in unknown format.")
  else
    .ok { uuid_str := str_advance char_token 16 }

def dav_svn_format_locktoken (locktoken : dav_locktoken) : String :=
  "opaquelocktoken:" ++ locktoken.uuid_str

def dav_svn_compare_locktoken (lt1 lt2 : dav_locktoken) : Int :=
  strcmp lt1.uuid_str lt2.uuid_str

/-! ## The provider functions (lock.c, lines 340-816) -/

/-- The error every provider function returns for a path the authorization
callback declares unreadable. -/
def path_not_accessible : dav_error :=
  dav_new_error HTTP_FORBIDDEN dav_error_id.DAV_ERR_LOCK_SAVE_LOCK "Path is not accessible."

/-- Open the lock database of a request (lock.c, lines 276-310).  The `force`
argument of mod_dav is not used; the `hooks` pointer of the database is left
out. -/
def dav_svn_open_lockdb {σ : Type} (r : request_rec) (ro : Int) (_force : Int) (w : world σ) :
    Except dav_error dav_lockdb × world σ :=
  let svn_client_options := apr_table_get r.headers_in SVN_DAV_OPTIONS_HEADER
  let force : Bool :=
    match svn_client_options with
    | some svn_client_options => (ap_strstr_c svn_client_options SVN_DAV_OPTION_FORCE).isSome
    | none => false
  let version_name := apr_table_get r.headers_in SVN_DAV_VERSION_NAME_HEADER
  let working_revnum : Int :=
    match version_name with
    | some version_name => SVN_STR_TO_REV version_name
    | none => SVN_INVALID_REVNUM
  (.ok { ro := ro, info := { force := force, working_revnum := working_revnum } }, w)

def dav_svn_create_lock {σ : Type} (repos : dav_svn_repos σ) (_lockdb : dav_lockdb)
    (resource : dav_resource) (w : world σ) : Except dav_error dav_lock × world σ :=
  match repos.svn_fs_generate_token w.fs with
  | .error serr =>
      (.error (dav_svn_convert_err serr HTTP_INTERNAL_SERVER_ERROR
        "Failed to generate a lock token."), w)
  | .ok uuid_str =>
      (.ok { rectype := DAV_LOCKREC_DIRECT
             is_locknull := resource.exists
             scope := DAV_LOCKSCOPE_UNKNOWN
             type := DAV_LOCKTYPE_UNKNOWN
             depth := 0
             locktoken := { uuid_str := uuid_str }
             timeout := 0
             owner := none
             auth_user := none
             next := none }, w)

def dav_svn_get_locks {σ : Type} (repos : dav_svn_repos σ) (lockdb : dav_lockdb)
    (resource : dav_resource) (_calltype : Int) (w : world σ) :
    Except dav_error (Option dav_lock) × world σ :=
  match resource.info.repos_path with
  | none => (.ok none, w)
  | some repos_path =>
    if lockdb.info.force then (.ok none, w)
    else
      match check_readability repos w (some repos_path) with
      | .error derr => (.error derr, w)
      | .ok readable =>
        if !readable then (.error path_not_accessible, w)
        else
          match repos.svn_fs_get_lock_from_path w.fs repos_path with
          | .error serr =>
              (.error (dav_svn_convert_err serr HTTP_INTERNAL_SERVER_ERROR
                "Failed to check path for a lock."), w)
          | .ok none => (.ok none, w)
          | .ok (some slock) => (.ok (some (svn_lock_to_dav_lock slock resource.exists)), w)

def dav_svn_find_lock {σ : Type} (repos : dav_svn_repos σ) (_lockdb : dav_lockdb)
    (resource : dav_resource) (locktoken : dav_locktoken) (_partial_ok : Int) (w : world σ) :
    Except dav_error (Option dav_lock) × world σ :=
  match check_readability repos w resource.info.repos_path with
  | .error derr => (.error derr, w)
  | .ok readable =>
    if !readable then (.error path_not_accessible, w)
    else
      match repos.svn_fs_get_lock_from_token w.fs locktoken.uuid_str with
      | .found slock => (.ok (some (svn_lock_to_dav_lock slock resource.exists)), w)
      | .failed serr slock =>
        if serr.apr_err = svn_errno.SVN_ERR_FS_BAD_LOCK_TOKEN
            ∨ serr.apr_err = svn_errno.SVN_ERR_FS_LOCK_EXPIRED then
          match slock with
          | none => (.ok none, w)
          | some slock => (.ok (some (svn_lock_to_dav_lock slock resource.exists)), w)
        else
          (.error (dav_svn_convert_err serr HTTP_INTERNAL_SERVER_ERROR
            "Failed to lookup lock via token."), w)

def dav_svn_has_locks {σ : Type} (repos : dav_svn_repos σ) (lockdb : dav_lockdb)
    (resource : dav_resource) (w : world σ) : Except dav_error Int × world σ :=
  match resource.info.repos_path with
  | none => (.ok 0, w)
  | some repos_path =>
    if lockdb.info.force then (.ok 0, w)
    else
      match check_readability repos w (some repos_path) with
      | .error derr => (.error derr, w)
      | .ok readable =>
        if !readable then (.error path_not_accessible, w)
        else
          match repos.svn_fs_get_lock_from_path w.fs repos_path with
          | .error serr =>
              (.error (dav_svn_convert_err serr HTTP_INTERNAL_SERVER_ERROR
                "Failed to check path for a lock."), w)
          | .ok slock => (.ok (if slock.isSome then 1 else 0), w)

def dav_svn_append_locks {σ : Type} (repos : dav_svn_repos σ) (lockdb : dav_lockdb)
    (resource : dav_resource) (_make_indirect : Int) (lock : dav_lock) (w : world σ) :
    Except dav_error Unit × world σ :=
  match check_readability repos w resource.info.repos_path with
  | .error derr => (.error derr, w)
  | .ok readable =>
    if !readable then (.error path_not_accessible, w)
    else if lock.next.isSome then
      (.error (dav_new_error HTTP_BAD_REQUEST dav_error_id.DAV_ERR_LOCK_SAVE_LOCK
        "Tried to attach multiple locks to a resource."), w)
    else
      match dav_lock_to_svn_lock w.now lock resource.info.repos_path with
      | .error derr => (.error derr, w)
      | .ok slock =>
        let attached := repos.svn_repos_fs_attach_lock w.fs slock lockdb.info.force
          lockdb.info.working_revnum
        let w1 : world σ :=
          { w with fs := attached.2
                   calls := w.calls ++ [repos_call.attach_lock slock lockdb.info.force
                     lockdb.info.working_revnum] }
        match attached.1 with
        | some serr =>
          if serr.apr_err = svn_errno.SVN_ERR_FS_NO_USER then
            (.error (dav_new_error HTTP_UNAUTHORIZED dav_error_id.DAV_ERR_LOCK_SAVE_LOCK
              "Anonymous lock creation is not allowed."), w1)
          else
            (.error (dav_svn_convert_err serr HTTP_INTERNAL_SERVER_ERROR
              "Failed to create new lock."), w1)
        | none =>
          (.ok (),
            { w1 with headers_out := apr_table_setn w1.headers_out SVN_DAV_CREATIONDATE_HEADER
                        (repos.svn_time_to_cstring slock.creation_date) })

def dav_svn_remove_lock {σ : Type} (repos : dav_svn_repos σ) (lockdb : dav_lockdb)
    (resource : dav_resource) (locktoken : Option dav_locktoken) (w : world σ) :
    Except dav_error Unit × world σ :=
  match resource.info.repos_path with
  | none => (.ok (), w)
  | some repos_path =>
    match check_readability repos w (some repos_path) with
    | .error derr => (.error derr, w)
    | .ok readable =>
      if !readable then (.error path_not_accessible, w)
      else
        let unlock_token (token : Option String) : Except dav_error Unit × world σ :=
          match token with
          | none => (.ok (), w)
          | some token =>
            let unlocked := repos.svn_repos_fs_unlock w.fs token lockdb.info.force
            let w1 : world σ :=
              { w with fs := unlocked.2
                       calls := w.calls ++ [repos_call.unlock token lockdb.info.force] }
            match unlocked.1 with
            | some serr =>
              if serr.apr_err = svn_errno.SVN_ERR_FS_NO_USER then
                (.error (dav_new_error HTTP_UNAUTHORIZED dav_error_id.DAV_ERR_LOCK_SAVE_LOCK
                  "Anonymous lock removal is not allowed."), w1)
              else
                (.error (dav_svn_convert_err serr HTTP_INTERNAL_SERVER_ERROR
                  "Failed to remove a lock."), w1)
            | none => (.ok (), w1)
        match locktoken with
        | none =>
          match repos.svn_fs_get_lock_from_path w.fs repos_path with
          | .error serr =>
              (.error (dav_svn_convert_err serr HTTP_INTERNAL_SERVER_ERROR
                "Failed to check path for a lock."), w)
          | .ok none => unlock_token none
          | .ok (some slock) => unlock_token (some slock.token)
        | some locktoken => unlock_token (some locktoken.uuid_str)

def dav_svn_refresh_locks {σ : Type} (repos : dav_svn_repos σ) (_lockdb : dav_lockdb)
    (resource : dav_resource) (ltl : dav_locktoken_list) (new_time : Int) (w : world σ) :
    Except dav_error (Option dav_lock) × world σ :=
  let token := ltl.locktoken
  match check_readability repos w resource.info.repos_path with
  | .error derr => (.error derr, w)
  | .ok readable =>
    if !readable then (.error path_not_accessible, w)
    else
      match repos.svn_fs_get_lock_from_token w.fs token.uuid_str with
      | .failed serr _ =>
          (.error (dav_svn_convert_err serr HTTP_INTERNAL_SERVER_ERROR
            "Token doesn\x27t point to a lock."), w)
      | .found slock =>
        if resource.info.repos_path = none
            ∨ paths_differ resource.info.repos_path slock.path then
          (.error (dav_new_error HTTP_UNAUTHORIZED dav_error_id.DAV_ERR_LOCK_SAVE_LOCK
            "Lock refresh request doesn\x27t match existing lock."), w)
        else
          let slock : svn_lock_t :=
            { slock with expiration_date := wrap64 (wrap64 new_time * APR_USEC_PER_SEC) }
          let attached := repos.svn_repos_fs_attach_lock w.fs slock true SVN_INVALID_REVNUM
          let w1 : world σ :=
            { w with fs := attached.2
                     calls := w.calls ++ [repos_call.attach_lock slock true SVN_INVALID_REVNUM] }
          match attached.1 with
          | some serr =>
            if serr.apr_err = svn_errno.SVN_ERR_FS_NO_USER then
              (.error (dav_new_error HTTP_UNAUTHORIZED dav_error_id.DAV_ERR_LOCK_SAVE_LOCK
                "Anonymous lock refreshing is not allowed."), w1)
            else
              (.error (dav_svn_convert_err serr HTTP_INTERNAL_SERVER_ERROR
                "Failed to refresh existing lock."), w1)
          | none => (.ok (some (svn_lock_to_dav_lock slock resource.exists)), w1)

/-! ## Vocabulary of the statements -/

/-- The result is an error with the given HTTP status and error id. -/
def fails_with {α : Type} (r : Except dav_error α) (status : Nat) (error_id : dav_error_id) :
    Prop :=
  ∃ e, r = .error e ∧ e.status = status ∧ e.error_id = error_id

/-- The error with which a gated provider function answers a gate that did not
report the path readable: the error of the gate when the gate failed, and
"Path is not accessible." when it reported the path unreadable. -/
def gate_refusal (r : Except dav_error Bool) : dav_error :=
  match r with
  | .error derr => derr
  | .ok _ => path_not_accessible

/-- A lock list that is empty or is one exclusive, direct write lock of depth 0
with no record after it. -/
def empty_or_single_write_lock (locks : Option dav_lock) : Prop :=
  locks = none
  ∨ ∃ d, locks = some d
      ∧ d.next = none
      ∧ d.scope = DAV_LOCKSCOPE_EXCLUSIVE
      ∧ d.type = DAV_LOCKTYPE_WRITE
      ∧ d.depth = 0
      ∧ d.rectype = DAV_LOCKREC_DIRECT

/-! ## A small concrete repository, for evaluating the functions

Its state is the list of locks it holds and the list of paths the
authorization callback refuses to show. -/

structure sample_fs where
  locks : List svn_lock_t
  unreadable : List String
deriving DecidableEq, Repr

def sample_repos : dav_svn_repos sample_fs :=
  { svn_fs_youngest_rev := fun _ => .ok 7
    svn_fs_revision_root := fun _ rev => .ok { rev := rev }
    dav_svn_authz_read := fun fs _ path =>
      match path with
      | none => .ok true
      | some p => .ok (!fs.unreadable.contains p)
    svn_fs_get_lock_from_path := fun fs p => .ok (fs.locks.find? (fun l => l.path == some p))
    svn_fs_get_lock_from_token := fun fs t =>
      match fs.locks.find? (fun l => l.token == t) with
      | some l => token_lookup.found l
      | none =>
          token_lookup.failed
            { apr_err := svn_errno.SVN_ERR_FS_BAD_LOCK_TOKEN, message := "no such lock" } none
    svn_fs_generate_token := fun _ => .ok "11111111-2222-3333-4444-555555555555"
    svn_repos_fs_attach_lock := fun fs l _ _ =>
      match l.owner with
      | none => (some { apr_err := svn_errno.SVN_ERR_FS_NO_USER, message := "no user" }, fs)
      | some _ => (none, { fs with locks := l :: fs.locks.filter (fun k => k.path != l.path) })
    svn_repos_fs_unlock := fun fs t _ =>
      (none, { fs with locks := fs.locks.filter (fun k => k.token != t) })
    svn_time_to_cstring := fun t => if t = 0 then "1970-01-01T00:00:00.000000Z" else "later" }

/-- A lock held by bob on /a/b that expires 3600 seconds after the epoch. -/
def lock_ab : svn_lock_t :=
  { path := some "/a/b"
    token := "tok-ab"
    owner := some "bob"
    comment := some "editing"
    creation_date := 1000000
    expiration_date := 3600000000 }

/-- A lock held by bob on /secret that never expires. -/
def lock_secret : svn_lock_t :=
  { path := some "/secret"
    token := "tok-secret"
    owner := some "bob"
    comment := none
    creation_date := 1000000
    expiration_date := 0 }

/-- A repository holding both sample locks in which /secret is unreadable. -/
def sample_world : world sample_fs :=
  { fs := { locks := [lock_ab, lock_secret], unreadable := ["/secret"] }
    now := 5000000
    headers_out := []
    calls := [] }

def resource_ab : dav_resource :=
  { «exists» := true, collection := false, info := { repos_path := some "/a/b" } }

def resource_secret : dav_resource :=
  { «exists» := true, collection := false, info := { repos_path := some "/secret" } }

def plain_lockdb : dav_lockdb :=
  { ro := 0, info := { force := false, working_revnum := SVN_INVALID_REVNUM } }

def forced_lockdb : dav_lockdb :=
  { ro := 0, info := { force := true, working_revnum := SVN_INVALID_REVNUM } }

/-- A lock record as mod_dav hands it to `append_locks` after filling in the
fields of a LOCK request. -/
def dav_lock_request : dav_lock :=
  { rectype := DAV_LOCKREC_DIRECT
    is_locknull := false
    scope := DAV_LOCKSCOPE_EXCLUSIVE
    type := DAV_LOCKTYPE_WRITE
    depth := 0
    timeout := 3600
    locktoken := { uuid_str := "tok-new" }
    owner := some "me"
    auth_user := some "alice"
    next := none }

/-- A lock held by carol on /x/y. -/
def lock_xy : svn_lock_t :=
  { path := some "/x/y"
    token := "tok-xy"
    owner := some "carol"
    comment := none
    creation_date := 2000000
    expiration_date := 3600000000 }

/-- A repository in which /x/y is locked and /a/b is not. -/
def world_xy : world sample_fs :=
  { fs := { locks := [lock_xy], unreadable := [] }
    now := 5000000
    headers_out := [("Content-Type", "text/xml")]
    calls := [] }

/-- The sample repository with a broken store: attaching and unlocking fail with
an error that is none of the three lock.c knows. -/
def broken_repos : dav_svn_repos sample_fs :=
  { sample_repos with
    svn_repos_fs_attach_lock := fun fs _ _ _ =>
      (some { apr_err := svn_errno.other 160004, message := "corrupt" }, fs)
    svn_repos_fs_unlock := fun fs _ _ =>
      (some { apr_err := svn_errno.other 160004, message := "corrupt" }, fs) }

/-- The sample repository with a token lookup that reports an expired lock and
leaves that lock in the variable of the caller. -/
def expiring_repos : dav_svn_repos sample_fs :=
  { sample_repos with
    svn_fs_get_lock_from_token := fun fs t =>
      match fs.locks.find? (fun l => l.token == t) with
      | some l =>
          token_lookup.failed
            { apr_err := svn_errno.SVN_ERR_FS_LOCK_EXPIRED, message := "lock expired" } (some l)
      | none =>
          token_lookup.failed
            { apr_err := svn_errno.SVN_ERR_FS_BAD_LOCK_TOKEN, message := "no such lock" } none }

/-- The sample repository out of reach: the youngest revision cannot be read, so
the authorization gate itself fails, and no token can be generated. -/
def offline_repos : dav_svn_repos sample_fs :=
  { sample_repos with
    svn_fs_youngest_rev := fun _ =>
      .error { apr_err := svn_errno.other 160029, message := "no repository" }
    svn_fs_generate_token := fun _ =>
      .error { apr_err := svn_errno.other 160029, message := "no repository" } }

/-- A LOCK request without an authenticated user. -/
def anonymous_lock_request : dav_lock :=
  { dav_lock_request with auth_user := none }

/-- A chain of two lock records, the second one a shared lock. -/
def chained_lock_request : dav_lock :=
  { dav_lock_request with
    next := some { dav_lock_request with scope := DAV_LOCKSCOPE_SHARED } }

/-! ## Auxiliary lemmas -/

theorem wrap64_of_int64_range (x : Int) (h : int64_range x) : wrap64 x = x := by
  unfold int64_range at h
  unfold wrap64
  omega

theorem not_fails_with_ok {α : Type} (a : α) (status : Nat) (error_id : dav_error_id) :
    ¬ fails_with (Except.ok a : Except dav_error α) status error_id := by
  rintro ⟨e, he, -⟩
  cases he

theorem strstr_offset_zero_iff (hay needle : List Char) :
    strstr_offset hay needle = some 0 ↔ needle <+: hay := by
  unfold strstr_offset
  by_cases h : needle.isPrefixOf hay = true
  · simp only [h, if_true, true_iff]
    simpa using h
  · have hn : ¬ needle <+: hay := by simpa using h
    simp only [h, if_false, hn, iff_false]
    cases hay with
    | nil => simp
    | cons c rest =>
      cases strstr_offset rest needle <;> simp

theorem ap_strstr_c_zero_iff (s c : String) :
    ap_strstr_c s c = some 0 ↔ c.data <+: s.data :=
  strstr_offset_zero_iff s.data c.data

theorem strcmp_chars_eq_zero_iff (a b : List Char) : strcmp_chars a b = 0 ↔ a = b := by
  induction a generalizing b with
  | nil => cases b <;> simp [strcmp_chars]
  | cons x xs ih =>
    cases b with
    | nil => simp [strcmp_chars]
    | cons y ys =>
      unfold strcmp_chars
      by_cases hxy : x = y
      · simp [hxy, ih]
      · have hne : (x.toNat : Int) - (y.toNat : Int) ≠ 0 := by
          intro h0
          apply hxy
          have hn : x.toNat = y.toNat := by omega
          rw [← Char.ofNat_toNat x, ← Char.ofNat_toNat y, hn]
        simp [hxy, hne]

theorem strcmp_eq_zero_iff (a b : String) : strcmp a b = 0 ↔ a = b := by
  unfold strcmp
  rw [strcmp_chars_eq_zero_iff]
  constructor
  · intro h
    cases a; cases b; simp_all
  · intro h; rw [h]

/-! ## The authorization gate and the force flag -/

/-- C1, as stated, fails: in the sample repository /secret is unreadable and
locked, yet with the force flag set `get_locks` and `has_locks` succeed (with
no lock and 0) instead of failing with 403 / save-lock. -/
theorem unreadable_forced_get_locks_succeeds :
    check_readability sample_repos sample_world resource_secret.info.repos_path = .ok false
    ∧ (dav_svn_get_locks sample_repos forced_lockdb resource_secret 0 sample_world).1 = .ok none
    ∧ (dav_svn_has_locks sample_repos forced_lockdb resource_secret sample_world).1 = .ok 0
    ∧ ¬ fails_with (dav_svn_get_locks sample_repos forced_lockdb resource_secret 0 sample_world).1
          403 dav_error_id.DAV_ERR_LOCK_SAVE_LOCK
    ∧ ¬ fails_with (dav_svn_has_locks sample_repos forced_lockdb resource_secret sample_world).1
          403 dav_error_id.DAV_ERR_LOCK_SAVE_LOCK := by
  have hget : (dav_svn_get_locks sample_repos forced_lockdb resource_secret 0 sample_world).1
      = .ok none := rfl
  have hhas : (dav_svn_has_locks sample_repos forced_lockdb resource_secret sample_world).1
      = .ok 0 := rfl
  refine ⟨rfl, hget, hhas, ?_, ?_⟩
  · rw [hget]
    exact not_fails_with_ok _ _ _
  · rw [hhas]
    exact not_fails_with_ok _ _ _

/-- C1, amended: when the authorization gate reports the path `p` of a resource
unreadable, `find_lock`, `append_locks`, `remove_lock` and `refresh_locks` fail
with 403 / save-lock whatever the lockdb, the arguments and the repository
state; `get_locks` and `has_locks` fail with 403 / save-lock when the force
flag of the lockdb is false, and succeed with no lock and 0 when it is true. -/
theorem unreadable_path_is_forbidden {σ : Type} (repos : dav_svn_repos σ) (lockdb : dav_lockdb)
    (resource : dav_resource) (w : world σ) (p : String)
    (calltype partial_ok make_indirect new_time : Int) (locktoken : dav_locktoken)
    (lock : dav_lock) (remove_token : Option dav_locktoken) (ltl : dav_locktoken_list)
    (hpath : resource.info.repos_path = some p)
    (hgate : check_readability repos w (some p) = .ok false) :
    fails_with (dav_svn_find_lock repos lockdb resource locktoken partial_ok w).1
        403 dav_error_id.DAV_ERR_LOCK_SAVE_LOCK
    ∧ fails_with (dav_svn_append_locks repos lockdb resource make_indirect lock w).1
        403 dav_error_id.DAV_ERR_LOCK_SAVE_LOCK
    ∧ fails_with (dav_svn_remove_lock repos lockdb resource remove_token w).1
        403 dav_error_id.DAV_ERR_LOCK_SAVE_LOCK
    ∧ fails_with (dav_svn_refresh_locks repos lockdb resource ltl new_time w).1
        403 dav_error_id.DAV_ERR_LOCK_SAVE_LOCK
    ∧ (lockdb.info.force = false →
        fails_with (dav_svn_get_locks repos lockdb resource calltype w).1
          403 dav_error_id.DAV_ERR_LOCK_SAVE_LOCK
        ∧ fails_with (dav_svn_has_locks repos lockdb resource w).1
          403 dav_error_id.DAV_ERR_LOCK_SAVE_LOCK)
    ∧ (lockdb.info.force = true →
        (dav_svn_get_locks repos lockdb resource calltype w).1 = .ok none
        ∧ (dav_svn_has_locks repos lockdb resource w).1 = .ok 0) := by
  have hforbidden : ∀ {α : Type}, fails_with (Except.error path_not_accessible : Except dav_error α)
      403 dav_error_id.DAV_ERR_LOCK_SAVE_LOCK := fun {_} => ⟨_, rfl, rfl, rfl⟩
  refine ⟨?_, ?_, ?_, ?_, ?_, ?_⟩
  · simp only [dav_svn_find_lock, hpath, hgate]
    exact hforbidden
  · simp only [dav_svn_append_locks, hpath, hgate]
    exact hforbidden
  · simp only [dav_svn_remove_lock, hpath, hgate]
    exact hforbidden
  · simp only [dav_svn_refresh_locks, hpath, hgate]
    exact hforbidden
  · intro hforce
    constructor
    · simp only [dav_svn_get_locks, hpath, hgate, hforce]
      exact hforbidden
    · simp only [dav_svn_has_locks, hpath, hgate, hforce]
      exact hforbidden
  · intro hforce
    constructor
    · simp only [dav_svn_get_locks, hpath, hforce, if_true]
    · simp only [dav_svn_has_locks, hpath, hforce, if_true]

/-- Witness for C1 (amended), at the unreadable, locked path /secret of the
sample repository and a lockdb without the force flag: all six functions fail
with 403 / save-lock. -/
theorem unreadable_path_is_forbidden_witness :
    resource_secret.info.repos_path = some "/secret"
    ∧ check_readability sample_repos sample_world (some "/secret") = .ok false
    ∧ plain_lockdb.info.force = false
    ∧ fails_with (dav_svn_find_lock sample_repos plain_lockdb resource_secret
          { uuid_str := "tok-secret" } 0 sample_world).1 403 dav_error_id.DAV_ERR_LOCK_SAVE_LOCK
    ∧ fails_with (dav_svn_append_locks sample_repos plain_lockdb resource_secret 0
          dav_lock_request sample_world).1 403 dav_error_id.DAV_ERR_LOCK_SAVE_LOCK
    ∧ fails_with (dav_svn_remove_lock sample_repos plain_lockdb resource_secret none
          sample_world).1 403 dav_error_id.DAV_ERR_LOCK_SAVE_LOCK
    ∧ fails_with (dav_svn_refresh_locks sample_repos plain_lockdb resource_secret
          { locktoken := { uuid_str := "tok-secret" }, next := [] } 7200 sample_world).1
          403 dav_error_id.DAV_ERR_LOCK_SAVE_LOCK
    ∧ fails_with (dav_svn_get_locks sample_repos plain_lockdb resource_secret 0 sample_world).1
          403 dav_error_id.DAV_ERR_LOCK_SAVE_LOCK
    ∧ fails_with (dav_svn_has_locks sample_repos plain_lockdb resource_secret sample_world).1
          403 dav_error_id.DAV_ERR_LOCK_SAVE_LOCK :=
  have h := unreadable_path_is_forbidden sample_repos plain_lockdb resource_secret sample_world
    "/secret" 0 0 0 7200 { uuid_str := "tok-secret" } dav_lock_request none
    { locktoken := { uuid_str := "tok-secret" }, next := [] } rfl rfl
  ⟨rfl, rfl, rfl, h.1, h.2.1, h.2.2.1, h.2.2.2.1, (h.2.2.2.2.1 rfl).1, (h.2.2.2.2.1 rfl).2⟩

/-- C2: with the force flag of the lockdb set, `get_locks` succeeds with an empty
lock list and `has_locks` succeeds with `locks_present = 0`, for every
resource and every repository state; neither changes the world. -/
theorem force_hides_locks {σ : Type} (repos : dav_svn_repos σ) (lockdb : dav_lockdb)
    (resource : dav_resource) (calltype : Int) (w : world σ)
    (hforce : lockdb.info.force = true) :
    dav_svn_get_locks repos lockdb resource calltype w = (.ok none, w)
    ∧ dav_svn_has_locks repos lockdb resource w = (.ok 0, w) := by
  constructor
  · unfold dav_svn_get_locks
    cases resource.info.repos_path <;> simp [hforce]
  · unfold dav_svn_has_locks
    cases resource.info.repos_path <;> simp [hforce]

/-- Witness for C2: the sample repository holds a lock on /a/b, and with the
force flag set `get_locks` and `has_locks` report none. -/
theorem force_hides_locks_witness :
    forced_lockdb.info.force = true
    ∧ sample_repos.svn_fs_get_lock_from_path sample_world.fs "/a/b" = .ok (some lock_ab)
    ∧ dav_svn_get_locks sample_repos forced_lockdb resource_ab 0 sample_world
        = (.ok none, sample_world)
    ∧ dav_svn_has_locks sample_repos forced_lockdb resource_ab sample_world
        = (.ok 0, sample_world) :=
  ⟨rfl, rfl, force_hides_locks sample_repos forced_lockdb resource_ab 0 sample_world rfl⟩

/-! ## The token codec -/

theorem locktoken_literal_data :
    "opaquelocktoken:".data
      = ['o', 'p', 'a', 'q', 'u', 'e', 'l', 'o', 'c', 'k', 't', 'o', 'k', 'e', 'n', ':'] := rfl

theorem parse_locktoken_of_begins (s : String) (h : "opaquelocktoken:".data <+: s.data) :
    dav_svn_parse_locktoken s = .ok { uuid_str := String.mk (s.data.drop 16) } := by
  unfold dav_svn_parse_locktoken
  rw [if_neg (not_not.mpr ((ap_strstr_c_zero_iff s "opaquelocktoken:").mpr h))]
  rfl

theorem parse_locktoken_of_not_begins (s : String) (h : ¬ "opaquelocktoken:".data <+: s.data) :
    dav_svn_parse_locktoken s
      = .error (dav_new_error 400 dav_error_id.DAV_ERR_LOCK_UNK_STATE_TOKEN
          "Client supplied lock token in unknown format.") := by
  unfold dav_svn_parse_locktoken
  rw [if_pos (fun h0 => h ((ap_strstr_c_zero_iff s "opaquelocktoken:").mp h0))]
  rfl

theorem drop_locktoken_literal (u : List Char) :
    ("opaquelocktoken:".data ++ u).drop 16 = u := by
  rw [locktoken_literal_data]
  rfl

/-- C3: for every lock token `t`, parsing the URI that `format_locktoken` emits
for `t` succeeds and gives back a token with the UUID string of `t` (the empty
string included). -/
theorem parse_format_locktoken (t : dav_locktoken) :
    ∃ t1, dav_svn_parse_locktoken (dav_svn_format_locktoken t) = .ok t1
      ∧ t1.uuid_str = t.uuid_str := by
  have hdata : (dav_svn_format_locktoken t).data = "opaquelocktoken:".data ++ t.uuid_str.data := by
    unfold dav_svn_format_locktoken
    exact String.data_append _ _
  have hbegins : "opaquelocktoken:".data <+: (dav_svn_format_locktoken t).data := by
    rw [hdata]
    exact List.prefix_append _ _
  refine ⟨_, parse_locktoken_of_begins _ hbegins, ?_⟩
  show String.mk ((dav_svn_format_locktoken t).data.drop 16) = t.uuid_str
  rw [hdata, drop_locktoken_literal]

/-- C4: every string `s` that begins with the 16 characters `opaquelocktoken:`
parses to the token whose UUID string is `s` without its first 16 characters,
and formatting that token gives `s` back. -/
theorem format_parse_locktoken (s : String) (h : "opaquelocktoken:".data <+: s.data) :
    dav_svn_parse_locktoken s = .ok { uuid_str := String.mk (s.data.drop 16) }
    ∧ dav_svn_format_locktoken { uuid_str := String.mk (s.data.drop 16) } = s := by
  refine ⟨parse_locktoken_of_begins s h, ?_⟩
  obtain ⟨u, hu⟩ := h
  unfold dav_svn_format_locktoken
  apply String.ext
  rw [String.data_append, ← hu, drop_locktoken_literal]

/-- Witness for C4: `opaquelocktoken:abc-123` parses to the UUID string `abc-123`,
which formats back to `opaquelocktoken:abc-123`. -/
theorem format_parse_locktoken_witness :
    "opaquelocktoken:".data <+: "opaquelocktoken:abc-123".data
    ∧ dav_svn_parse_locktoken "opaquelocktoken:abc-123" = .ok { uuid_str := "abc-123" }
    ∧ dav_svn_format_locktoken { uuid_str := "abc-123" } = "opaquelocktoken:abc-123" :=
  have hb : "opaquelocktoken:".data <+: "opaquelocktoken:abc-123".data := ⟨"abc-123".data, rfl⟩
  ⟨hb, format_parse_locktoken "opaquelocktoken:abc-123" hb⟩

/-- C5: `parse_locktoken` fails exactly on the strings that do not begin with
`opaquelocktoken:`; each failure is 400 / unknown-state-token (as for
`something-else:xyz`); every string with the prefix is accepted with the rest
of the string as UUID, the bare prefix with the empty UUID included. -/
theorem parse_locktoken_fails_iff (s : String) :
    ((∃ e, dav_svn_parse_locktoken s = .error e) ↔ ¬ "opaquelocktoken:".data <+: s.data)
    ∧ (¬ "opaquelocktoken:".data <+: s.data →
        fails_with (dav_svn_parse_locktoken s) 400 dav_error_id.DAV_ERR_LOCK_UNK_STATE_TOKEN)
    ∧ ("opaquelocktoken:".data <+: s.data →
        dav_svn_parse_locktoken s = .ok { uuid_str := String.mk (s.data.drop 16) })
    ∧ fails_with (dav_svn_parse_locktoken "something-else:xyz")
        400 dav_error_id.DAV_ERR_LOCK_UNK_STATE_TOKEN
    ∧ dav_svn_parse_locktoken "opaquelocktoken:" = .ok { uuid_str := "" } := by
  refine ⟨?_, ?_, parse_locktoken_of_begins s, ⟨_, rfl, rfl, rfl⟩, rfl⟩
  · constructor
    · rintro ⟨e, he⟩ hb
      rw [parse_locktoken_of_begins s hb] at he
      cases he
    · intro hb
      exact ⟨_, parse_locktoken_of_not_begins s hb⟩
  · intro hb
    exact ⟨_, parse_locktoken_of_not_begins s hb, rfl, rfl⟩

/-! ## The lock record translator -/

theorem dav_lock_to_svn_lock_of_accepted (now : Int) (d : dav_lock) (path : Option String)
    (htype : d.type = DAV_LOCKTYPE_WRITE) (hscope : d.scope = DAV_LOCKSCOPE_EXCLUSIVE) :
    dav_lock_to_svn_lock now d path
      = .ok { path := path
              token := d.locktoken.uuid_str
              owner := d.auth_user
              comment := d.owner
              creation_date := now
              expiration_date :=
                if d.timeout ≠ 0 then wrap64 (wrap64 d.timeout * APR_USEC_PER_SEC) else 0 } := by
  unfold dav_lock_to_svn_lock
  rw [if_neg (not_not.mpr htype), if_neg (not_not.mpr hscope)]
  cases d.auth_user <;> cases d.owner <;> rfl

/-- C6: the DAV→repository translation fails exactly when the type of the DAV
lock is not WRITE or its scope is not EXCLUSIVE; every failure is 400 /
save-lock; a wrong type is reported as "Only 'write' locks are supported."
whatever the scope, and a wrong scope under type WRITE as "Only exclusive
locks are supported.". -/
theorem dav_lock_to_svn_lock_fails_iff (now : Int) (d : dav_lock) (path : Option String) :
    ((∃ e, dav_lock_to_svn_lock now d path = .error e)
        ↔ (d.type ≠ DAV_LOCKTYPE_WRITE ∨ d.scope ≠ DAV_LOCKSCOPE_EXCLUSIVE))
    ∧ (∀ e, dav_lock_to_svn_lock now d path = .error e →
        e.status = 400 ∧ e.error_id = dav_error_id.DAV_ERR_LOCK_SAVE_LOCK)
    ∧ (d.type ≠ DAV_LOCKTYPE_WRITE →
        dav_lock_to_svn_lock now d path
          = .error (dav_new_error 400 dav_error_id.DAV_ERR_LOCK_SAVE_LOCK
              "Only \x27write\x27 locks are supported."))
    ∧ (d.type = DAV_LOCKTYPE_WRITE → d.scope ≠ DAV_LOCKSCOPE_EXCLUSIVE →
        dav_lock_to_svn_lock now d path
          = .error (dav_new_error 400 dav_error_id.DAV_ERR_LOCK_SAVE_LOCK
              "Only exclusive locks are supported.")) := by
  have htype : d.type ≠ DAV_LOCKTYPE_WRITE →
      dav_lock_to_svn_lock now d path
        = .error (dav_new_error 400 dav_error_id.DAV_ERR_LOCK_SAVE_LOCK
            "Only \x27write\x27 locks are supported.") := by
    intro h
    unfold dav_lock_to_svn_lock
    rw [if_pos h]
    rfl
  have hscope : d.type = DAV_LOCKTYPE_WRITE → d.scope ≠ DAV_LOCKSCOPE_EXCLUSIVE →
      dav_lock_to_svn_lock now d path
        = .error (dav_new_error 400 dav_error_id.DAV_ERR_LOCK_SAVE_LOCK
            "Only exclusive locks are supported.") := by
    intro ht hs
    unfold dav_lock_to_svn_lock
    rw [if_neg (not_not.mpr ht), if_pos hs]
    rfl
  refine ⟨?_, ?_, htype, hscope⟩
  · constructor
    · rintro ⟨e, he⟩
      by_contra hacc
      push_neg at hacc
      rw [dav_lock_to_svn_lock_of_accepted now d path hacc.1 hacc.2] at he
      cases he
    · intro h
      by_cases ht : d.type = DAV_LOCKTYPE_WRITE
      · exact ⟨_, hscope ht (h.resolve_left (not_not.mpr ht))⟩
      · exact ⟨_, htype ht⟩
  · intro e he
    by_cases ht : d.type = DAV_LOCKTYPE_WRITE
    · by_cases hs : d.scope = DAV_LOCKSCOPE_EXCLUSIVE
      · rw [dav_lock_to_svn_lock_of_accepted now d path ht hs] at he
        cases he
      · rw [hscope ht hs] at he
        cases he
        exact ⟨rfl, rfl⟩
    · rw [htype ht] at he
      cases he
      exact ⟨rfl, rfl⟩

/-- C7: the translator crosses the owner fields.  The repository→DAV
translation of `L` has `owner = L.comment` and `auth_user = L.owner`; the
DAV→repository translation of an accepted DAV lock `d` succeeds with
`owner = d.auth_user`, `comment = d.owner` (absent stays absent), the given
path and the token UUID of `d`. -/
theorem owner_fields_cross (L : svn_lock_t) (exists_p : Bool) (now : Int) (d : dav_lock)
    (path : Option String)
    (htype : d.type = DAV_LOCKTYPE_WRITE) (hscope : d.scope = DAV_LOCKSCOPE_EXCLUSIVE) :
    (svn_lock_to_dav_lock L exists_p).owner = L.comment
    ∧ (svn_lock_to_dav_lock L exists_p).auth_user = L.owner
    ∧ ∃ s, dav_lock_to_svn_lock now d path = .ok s
        ∧ s.owner = d.auth_user
        ∧ s.comment = d.owner
        ∧ s.path = path
        ∧ s.token = d.locktoken.uuid_str :=
  ⟨rfl, rfl, _, dav_lock_to_svn_lock_of_accepted now d path htype hscope, rfl, rfl, rfl, rfl⟩

/-- Witness for C7: the lock of bob on /a/b, and a LOCK request of alice with the
note "me" and no note at all. -/
theorem owner_fields_cross_witness :
    (svn_lock_to_dav_lock lock_ab true).owner = some "editing"
    ∧ (svn_lock_to_dav_lock lock_ab true).auth_user = some "bob"
    ∧ (∃ s, dav_lock_to_svn_lock 5000000 dav_lock_request (some "/a/b") = .ok s
        ∧ s.owner = some "alice"
        ∧ s.comment = some "me"
        ∧ s.path = some "/a/b"
        ∧ s.token = "tok-new")
    ∧ (∃ s, dav_lock_to_svn_lock 5000000 { dav_lock_request with owner := none } none = .ok s
        ∧ s.owner = some "alice"
        ∧ s.comment = none
        ∧ s.path = none
        ∧ s.token = "tok-new") :=
  have h1 := owner_fields_cross lock_ab true 5000000 dav_lock_request (some "/a/b") rfl rfl
  have h2 := owner_fields_cross lock_ab true 5000000 { dav_lock_request with owner := none }
    none rfl rfl
  ⟨h1.1, h1.2.1, h1.2.2, h2.2.2⟩

/-- C8: for a repository lock whose expiration date `E` is a multiple of
1,000,000 microseconds (zero included), translating to a DAV record and back
succeeds and yields the expiration date `E` again. -/
theorem expiration_round_trip (L : svn_lock_t) (exists_p : Bool) (now : Int)
    (path : Option String)
    (hrange : int64_range L.expiration_date)
    (hmult : (1000000 : Int) ∣ L.expiration_date) :
    ∃ s, dav_lock_to_svn_lock now (svn_lock_to_dav_lock L exists_p) path = .ok s
      ∧ s.expiration_date = L.expiration_date := by
  refine ⟨_, dav_lock_to_svn_lock_of_accepted now _ path rfl rfl, ?_⟩
  obtain ⟨q, hq⟩ := hmult
  show (if (svn_lock_to_dav_lock L exists_p).timeout ≠ 0 then
      wrap64 (wrap64 (svn_lock_to_dav_lock L exists_p).timeout * APR_USEC_PER_SEC) else 0)
    = L.expiration_date
  have htimeout : (svn_lock_to_dav_lock L exists_p).timeout
      = if L.expiration_date ≠ 0 then
          wrap64 ((wrap64 L.expiration_date).tdiv APR_USEC_PER_SEC)
        else DAV_TIMEOUT_INFINITE := rfl
  rw [htimeout]
  by_cases hzero : L.expiration_date = 0
  · rw [if_neg (not_not.mpr hzero)]
    simp [DAV_TIMEOUT_INFINITE, hzero]
  · have hqrange : int64_range q := by
      unfold int64_range at hrange ⊢
      omega
    have hq0 : q ≠ 0 := by
      intro h0
      apply hzero
      rw [hq, h0, mul_zero]
    have hdiv : (wrap64 L.expiration_date).tdiv APR_USEC_PER_SEC = q := by
      rw [wrap64_of_int64_range _ hrange, hq]
      exact Int.mul_tdiv_cancel_left q (by decide)
    rw [if_pos hzero, hdiv, wrap64_of_int64_range q hqrange, if_pos hq0]
    have hprod : q * APR_USEC_PER_SEC = L.expiration_date := by
      rw [hq]
      unfold APR_USEC_PER_SEC
      ring
    rw [wrap64_of_int64_range q hqrange, hprod, wrap64_of_int64_range _ hrange]

/-- Witness for C8: the sample lock on /a/b expires at 3,600,000,000
microseconds and the sample lock on /secret never expires (0); both keep their
expiration date through the round trip. -/
theorem expiration_round_trip_witness :
    (int64_range lock_ab.expiration_date
      ∧ (1000000 : Int) ∣ lock_ab.expiration_date
      ∧ lock_ab.expiration_date = 3600000000
      ∧ ∃ s, dav_lock_to_svn_lock 5000000 (svn_lock_to_dav_lock lock_ab true) (some "/a/b")
            = .ok s
          ∧ s.expiration_date = 3600000000)
    ∧ (int64_range lock_secret.expiration_date
      ∧ (1000000 : Int) ∣ lock_secret.expiration_date
      ∧ lock_secret.expiration_date = 0
      ∧ ∃ s, dav_lock_to_svn_lock 5000000 (svn_lock_to_dav_lock lock_secret true)
            (some "/secret") = .ok s
          ∧ s.expiration_date = 0) :=
  have hr : int64_range lock_ab.expiration_date := by decide
  have hm : (1000000 : Int) ∣ lock_ab.expiration_date := ⟨3600, rfl⟩
  have hr0 : int64_range lock_secret.expiration_date := by decide
  have hm0 : (1000000 : Int) ∣ lock_secret.expiration_date := ⟨0, rfl⟩
  ⟨⟨hr, hm, rfl, expiration_round_trip lock_ab true 5000000 (some "/a/b") hr hm⟩,
    ⟨hr0, hm0, rfl, expiration_round_trip lock_secret true 5000000 (some "/secret") hr0 hm0⟩⟩

theorem empty_or_single_of_translated (slock : svn_lock_t) (exists_p : Bool) :
    empty_or_single_write_lock (some (svn_lock_to_dav_lock slock exists_p)) :=
  Or.inr ⟨_, rfl, rfl, rfl, rfl, rfl, rfl⟩

theorem get_locks_result_shape {σ : Type} (repos : dav_svn_repos σ) (lockdb : dav_lockdb)
    (resource : dav_resource) (calltype : Int) (w : world σ) (locks : Option dav_lock)
    (h : (dav_svn_get_locks repos lockdb resource calltype w).1 = .ok locks) :
    empty_or_single_write_lock locks := by
  unfold dav_svn_get_locks at h
  repeat' split at h
  all_goals
    cases h <;> first
      | exact Or.inl rfl
      | exact empty_or_single_of_translated _ _

theorem find_lock_result_shape {σ : Type} (repos : dav_svn_repos σ) (lockdb : dav_lockdb)
    (resource : dav_resource) (locktoken : dav_locktoken) (partial_ok : Int) (w : world σ)
    (locks : Option dav_lock)
    (h : (dav_svn_find_lock repos lockdb resource locktoken partial_ok w).1 = .ok locks) :
    empty_or_single_write_lock locks := by
  unfold dav_svn_find_lock at h
  repeat' split at h
  all_goals
    cases h <;> first
      | exact Or.inl rfl
      | exact empty_or_single_of_translated _ _

theorem refresh_locks_result_shape {σ : Type} (repos : dav_svn_repos σ) (lockdb : dav_lockdb)
    (resource : dav_resource) (ltl : dav_locktoken_list) (new_time : Int) (w : world σ)
    (locks : Option dav_lock)
    (h : (dav_svn_refresh_locks repos lockdb resource ltl new_time w).1 = .ok locks) :
    empty_or_single_write_lock locks := by
  simp only [dav_svn_refresh_locks] at h
  repeat' split at h
  all_goals
    cases h <;> first
      | exact Or.inl rfl
      | exact empty_or_single_of_translated _ _

/-- C9: the DAV record that `svn_lock_to_dav_lock` produces has scope EXCLUSIVE,
type WRITE, depth 0, rectype DIRECT and no successor, for every repository
lock and either value of the exists flag; and every lock list that
`get_locks`, `find_lock` or `refresh_locks` returns on success is empty or one
record with these values and no successor. -/
theorem translated_lock_shape {σ : Type} (repos : dav_svn_repos σ) (lockdb : dav_lockdb)
    (resource : dav_resource) (w : world σ) (calltype partial_ok new_time : Int)
    (locktoken : dav_locktoken) (ltl : dav_locktoken_list)
    (slock : svn_lock_t) (exists_p : Bool) :
    ((svn_lock_to_dav_lock slock exists_p).scope = DAV_LOCKSCOPE_EXCLUSIVE
      ∧ (svn_lock_to_dav_lock slock exists_p).type = DAV_LOCKTYPE_WRITE
      ∧ (svn_lock_to_dav_lock slock exists_p).depth = 0
      ∧ (svn_lock_to_dav_lock slock exists_p).rectype = DAV_LOCKREC_DIRECT
      ∧ (svn_lock_to_dav_lock slock exists_p).next = none)
    ∧ (∀ locks, (dav_svn_get_locks repos lockdb resource calltype w).1 = .ok locks →
        empty_or_single_write_lock locks)
    ∧ (∀ locks, (dav_svn_find_lock repos lockdb resource locktoken partial_ok w).1 = .ok locks →
        empty_or_single_write_lock locks)
    ∧ (∀ locks, (dav_svn_refresh_locks repos lockdb resource ltl new_time w).1 = .ok locks →
        empty_or_single_write_lock locks) :=
  ⟨⟨rfl, rfl, rfl, rfl, rfl⟩,
    get_locks_result_shape repos lockdb resource calltype w,
    find_lock_result_shape repos lockdb resource locktoken partial_ok w,
    refresh_locks_result_shape repos lockdb resource ltl new_time w⟩

/-- Witness for C9: on the readable, locked path /a/b of the sample repository
`get_locks`, `find_lock` and `refresh_locks` each succeed with one lock, of the
stated shape. -/
theorem translated_lock_shape_witness :
    (dav_svn_get_locks sample_repos plain_lockdb resource_ab 0 sample_world).1
        = .ok (some (svn_lock_to_dav_lock lock_ab true))
    ∧ (dav_svn_find_lock sample_repos plain_lockdb resource_ab { uuid_str := "tok-ab" } 0
        sample_world).1 = .ok (some (svn_lock_to_dav_lock lock_ab true))
    ∧ (dav_svn_refresh_locks sample_repos plain_lockdb resource_ab
        { locktoken := { uuid_str := "tok-ab" }, next := [] } 7200 sample_world).1
        = .ok (some (svn_lock_to_dav_lock { lock_ab with expiration_date := 7200000000 } true))
    ∧ empty_or_single_write_lock (some (svn_lock_to_dav_lock lock_ab true))
    ∧ empty_or_single_write_lock
        (some (svn_lock_to_dav_lock { lock_ab with expiration_date := 7200000000 } true)) :=
  have h := translated_lock_shape sample_repos plain_lockdb resource_ab sample_world 0 0 7200
    { uuid_str := "tok-ab" } { locktoken := { uuid_str := "tok-ab" }, next := [] } lock_ab true
  ⟨rfl, rfl, rfl, h.2.1 _ rfl, h.2.2.2 _ rfl⟩

/-- C10 fails on the code: `svn_lock_to_dav_lock` copies the exists flag into
`is_locknull`, so the record for a resource that exists (here /a/b, through
`get_locks`) has `is_locknull` true and the record for a resource that does
not exist has it false. -/
theorem is_locknull_copies_exists :
    (∀ (slock : svn_lock_t) (exists_p : Bool),
        (svn_lock_to_dav_lock slock exists_p).is_locknull = exists_p)
    ∧ resource_ab.exists = true
    ∧ (dav_svn_get_locks sample_repos plain_lockdb resource_ab 0 sample_world).1
        = .ok (some (svn_lock_to_dav_lock lock_ab true))
    ∧ (svn_lock_to_dav_lock lock_ab true).is_locknull = true
    ∧ (svn_lock_to_dav_lock lock_ab false).is_locknull = false :=
  ⟨fun _ _ => rfl, rfl, rfl, rfl, rfl⟩

/-! ## Zero and the infinite timeout -/

theorem tdiv_usec_of_int64_range (x : Int) (h : int64_range x) :
    int64_range (x.tdiv 1000000)
    ∧ (1000000 ≤ x ∨ x ≤ -1000000 → x.tdiv 1000000 ≠ 0) := by
  unfold int64_range at h ⊢
  rcases le_or_lt 0 x with hx | hx
  · rw [Int.tdiv_eq_ediv hx (by decide)]
    omega
  · have hneg : x.tdiv 1000000 = -((-x) / 1000000) := by
      have h1 : x = -(-x) := by ring
      rw [h1, Int.neg_tdiv, Int.tdiv_eq_ediv (by omega) (by decide)]
      simp
    rw [hneg]
    omega

theorem usec_product_of_int64_range (t : Int) (h : int64_range (t * 1000000)) :
    wrap64 (wrap64 t * APR_USEC_PER_SEC) = t * 1000000 := by
  have ht : int64_range t := by
    unfold int64_range at h ⊢
    omega
  rw [wrap64_of_int64_range t ht]
  unfold APR_USEC_PER_SEC
  exact wrap64_of_int64_range _ h

theorem usec_product_wrap (t : Int) :
    wrap64 (wrap64 t * APR_USEC_PER_SEC) = wrap64 (t * 1000000) := by
  unfold wrap64 APR_USEC_PER_SEC
  omega

/-- C11, as stated, fails in both directions.  A lock that expires half a second
after the epoch (500,000 microseconds, not zero) is translated to the timeout
0, the infinite sentinel; and a DAV lock with the non-zero timeout 2^58 seconds
is translated to the expiration date 0, because 2^58 * 1,000,000 is a multiple
of 2^64. -/
theorem zero_not_only_from_zero :
    ({ lock_ab with expiration_date := 500000 } : svn_lock_t).expiration_date ≠ 0
    ∧ (svn_lock_to_dav_lock { lock_ab with expiration_date := 500000 } true).timeout
        = DAV_TIMEOUT_INFINITE
    ∧ ({ dav_lock_request with timeout := 2 ^ 58 } : dav_lock).timeout ≠ 0
    ∧ ∃ s, dav_lock_to_svn_lock 5000000 { dav_lock_request with timeout := 2 ^ 58 } (some "/a/b")
          = .ok s
        ∧ s.expiration_date = 0 :=
  ⟨by decide, by decide, by decide, _, rfl, by decide⟩

/-- C11, amended: for a repository lock whose expiration date is zero or at
least one second (1,000,000 microseconds) away from zero, the timeout of its
DAV translation is the infinite sentinel, zero, exactly when the expiration
date is zero; and for an accepted DAV lock whose timeout in microseconds fits
the signed 64-bit `apr_time_t`, the expiration date of its repository
translation is zero exactly when the timeout is zero. -/
theorem zero_iff_zero_in_range (L : svn_lock_t) (exists_p : Bool) (now : Int) (d : dav_lock)
    (path : Option String)
    (hrange : int64_range L.expiration_date)
    (hsecond : L.expiration_date = 0 ∨ 1000000 ≤ L.expiration_date
      ∨ L.expiration_date ≤ -1000000)
    (htype : d.type = DAV_LOCKTYPE_WRITE) (hscope : d.scope = DAV_LOCKSCOPE_EXCLUSIVE)
    (hproduct : int64_range (d.timeout * 1000000)) :
    DAV_TIMEOUT_INFINITE = 0
    ∧ ((svn_lock_to_dav_lock L exists_p).timeout = DAV_TIMEOUT_INFINITE
        ↔ L.expiration_date = 0)
    ∧ ∃ s, dav_lock_to_svn_lock now d path = .ok s
        ∧ (s.expiration_date = 0 ↔ d.timeout = 0) := by
  refine ⟨rfl, ?_, _, dav_lock_to_svn_lock_of_accepted now d path htype hscope, ?_⟩
  · show (if L.expiration_date ≠ 0 then
        wrap64 ((wrap64 L.expiration_date).tdiv APR_USEC_PER_SEC)
      else DAV_TIMEOUT_INFINITE) = DAV_TIMEOUT_INFINITE ↔ L.expiration_date = 0
    by_cases hzero : L.expiration_date = 0
    · rw [if_neg (not_not.mpr hzero)]
      exact ⟨fun _ => hzero, fun _ => rfl⟩
    · have hfar : 1000000 ≤ L.expiration_date ∨ L.expiration_date ≤ -1000000 :=
        hsecond.resolve_left hzero
      have hdiv := tdiv_usec_of_int64_range L.expiration_date hrange
      rw [if_pos hzero, wrap64_of_int64_range _ hrange]
      unfold APR_USEC_PER_SEC DAV_TIMEOUT_INFINITE
      rw [wrap64_of_int64_range _ hdiv.1]
      exact ⟨fun h => absurd h (hdiv.2 hfar), fun h => absurd h hzero⟩
  · show (if d.timeout ≠ 0 then wrap64 (wrap64 d.timeout * APR_USEC_PER_SEC) else 0) = 0
      ↔ d.timeout = 0
    by_cases hzero : d.timeout = 0
    · rw [if_neg (not_not.mpr hzero)]
      exact ⟨fun _ => hzero, fun _ => rfl⟩
    · rw [if_pos hzero, usec_product_of_int64_range _ hproduct]
      constructor
      · intro h
        omega
      · intro h
        exact absurd h hzero

/-- Witness for C11 (amended): the sample lock on /a/b (expiring at 3,600,000,000
microseconds) gets the timeout 3600, not the sentinel, and the sample LOCK
request (timeout 3600) gets a non-zero expiration date. -/
theorem zero_iff_zero_in_range_witness :
    int64_range lock_ab.expiration_date
    ∧ 1000000 ≤ lock_ab.expiration_date
    ∧ int64_range (dav_lock_request.timeout * 1000000)
    ∧ ((svn_lock_to_dav_lock lock_ab true).timeout = DAV_TIMEOUT_INFINITE
        ↔ lock_ab.expiration_date = 0)
    ∧ (svn_lock_to_dav_lock lock_ab true).timeout = 3600
    ∧ ∃ s, dav_lock_to_svn_lock 5000000 dav_lock_request (some "/a/b") = .ok s
        ∧ (s.expiration_date = 0 ↔ dav_lock_request.timeout = 0) :=
  have hr : int64_range lock_ab.expiration_date := by decide
  have hs : (1000000 : Int) ≤ lock_ab.expiration_date := by decide
  have hp : int64_range (dav_lock_request.timeout * 1000000) := by decide
  have h := zero_iff_zero_in_range lock_ab true 5000000 dav_lock_request (some "/a/b") hr
    (Or.inr (Or.inl hs)) rfl rfl hp
  ⟨hr, hs, hp, h.2.1, rfl, h.2.2⟩

/-! ## Creating a lock: `append_locks` -/

theorem append_locks_of_accepted {σ : Type} (repos : dav_svn_repos σ) (lockdb : dav_lockdb)
    (resource : dav_resource) (make_indirect : Int) (d : dav_lock) (w : world σ)
    (slock : svn_lock_t)
    (hread : check_readability repos w resource.info.repos_path = .ok true)
    (hnext : d.next = none)
    (hslock : dav_lock_to_svn_lock w.now d resource.info.repos_path = .ok slock) :
    dav_svn_append_locks repos lockdb resource make_indirect d w
      = match (repos.svn_repos_fs_attach_lock w.fs slock lockdb.info.force
            lockdb.info.working_revnum).1 with
        | some serr =>
          if serr.apr_err = svn_errno.SVN_ERR_FS_NO_USER then
            (.error (dav_new_error HTTP_UNAUTHORIZED dav_error_id.DAV_ERR_LOCK_SAVE_LOCK
              "Anonymous lock creation is not allowed."),
              { w with
                fs := (repos.svn_repos_fs_attach_lock w.fs slock lockdb.info.force
                  lockdb.info.working_revnum).2
                calls := w.calls ++ [repos_call.attach_lock slock lockdb.info.force
                  lockdb.info.working_revnum] })
          else
            (.error (dav_svn_convert_err serr HTTP_INTERNAL_SERVER_ERROR
              "Failed to create new lock."),
              { w with
                fs := (repos.svn_repos_fs_attach_lock w.fs slock lockdb.info.force
                  lockdb.info.working_revnum).2
                calls := w.calls ++ [repos_call.attach_lock slock lockdb.info.force
                  lockdb.info.working_revnum] })
        | none =>
          (.ok (),
            { fs := (repos.svn_repos_fs_attach_lock w.fs slock lockdb.info.force
                lockdb.info.working_revnum).2
              now := w.now
              calls := w.calls ++ [repos_call.attach_lock slock lockdb.info.force
                lockdb.info.working_revnum]
              headers_out := apr_table_setn w.headers_out SVN_DAV_CREATIONDATE_HEADER
                (repos.svn_time_to_cstring slock.creation_date) }) := by
  simp only [dav_svn_append_locks, hread, hnext, hslock]
  rfl

theorem append_locks_calls_of_accepted {σ : Type} (repos : dav_svn_repos σ)
    (lockdb : dav_lockdb) (resource : dav_resource) (make_indirect : Int) (d : dav_lock)
    (w : world σ) (slock : svn_lock_t)
    (hread : check_readability repos w resource.info.repos_path = .ok true)
    (hnext : d.next = none)
    (hslock : dav_lock_to_svn_lock w.now d resource.info.repos_path = .ok slock) :
    (dav_svn_append_locks repos lockdb resource make_indirect d w).2.calls
        = w.calls ++ [repos_call.attach_lock slock lockdb.info.force lockdb.info.working_revnum]
    ∧ (dav_svn_append_locks repos lockdb resource make_indirect d w).2.fs
        = (repos.svn_repos_fs_attach_lock w.fs slock lockdb.info.force
            lockdb.info.working_revnum).2 := by
  rw [append_locks_of_accepted repos lockdb resource make_indirect d w slock hread hnext hslock]
  split
  · split <;> exact ⟨rfl, rfl⟩
  · exact ⟨rfl, rfl⟩

/-- C12, as stated, fails: for the LOCK request of alice on the readable path
/a/b with the timeout 9,223,372,036,855 seconds, whose value in microseconds
exceeds the signed 64-bit `apr_time_t`, the record that `append_locks` passes
to `attach_lock` has the expiration date -9,223,372,036,854,551,616 (the
64-bit product), not `d.timeout * 1,000,000`. -/
theorem append_locks_product_overflows :
    check_readability sample_repos sample_world resource_ab.info.repos_path = .ok true
    ∧ ({ dav_lock_request with timeout := 9223372036855 } : dav_lock).next = none
    ∧ ({ dav_lock_request with timeout := 9223372036855 } : dav_lock).type = DAV_LOCKTYPE_WRITE
    ∧ ({ dav_lock_request with timeout := 9223372036855 } : dav_lock).scope
        = DAV_LOCKSCOPE_EXCLUSIVE
    ∧ (dav_svn_append_locks sample_repos plain_lockdb resource_ab 0
        { dav_lock_request with timeout := 9223372036855 } sample_world).2.calls
        = [repos_call.attach_lock
            { path := some "/a/b"
              token := "tok-new"
              owner := some "alice"
              comment := some "me"
              creation_date := 5000000
              expiration_date := -9223372036854551616 }
            false SVN_INVALID_REVNUM]
    ∧ (dav_svn_append_locks sample_repos plain_lockdb resource_ab 0
        { dav_lock_request with timeout := 9223372036855 } sample_world).2.calls
        ≠ [repos_call.attach_lock
            { path := some "/a/b"
              token := "tok-new"
              owner := some "alice"
              comment := some "me"
              creation_date := 5000000
              expiration_date := 9223372036855 * 1000000 }
            false SVN_INVALID_REVNUM] := by
  have hcalls : (dav_svn_append_locks sample_repos plain_lockdb resource_ab 0
      { dav_lock_request with timeout := 9223372036855 } sample_world).2.calls
      = [repos_call.attach_lock
          { path := some "/a/b"
            token := "tok-new"
            owner := some "alice"
            comment := some "me"
            creation_date := 5000000
            expiration_date := -9223372036854551616 }
          false SVN_INVALID_REVNUM] := rfl
  refine ⟨rfl, rfl, rfl, rfl, hcalls, ?_⟩
  rw [hcalls]
  decide

/-- C12, amended: for a readable resource and a single DAV lock `d` of type WRITE
and scope EXCLUSIVE, `append_locks` makes exactly one mutating repository
call, an `attach_lock` with the force flag and working revision of the lockdb
and the record with the path of the resource, the token UUID of `d`,
`owner = d.auth_user`, `comment = d.owner`, the current clock value as creation
date and, as expiration date, `d.timeout * 1,000,000` computed in signed 64-bit
arithmetic; that is `d.timeout * 1,000,000` itself whenever this value fits the
signed 64-bit `apr_time_t`.  The repository state after the call is the one
that `attach_lock` leaves. -/
theorem append_locks_attaches_once {σ : Type} (repos : dav_svn_repos σ) (lockdb : dav_lockdb)
    (resource : dav_resource) (make_indirect : Int) (d : dav_lock) (w : world σ)
    (hread : check_readability repos w resource.info.repos_path = .ok true)
    (hnext : d.next = none)
    (htype : d.type = DAV_LOCKTYPE_WRITE) (hscope : d.scope = DAV_LOCKSCOPE_EXCLUSIVE) :
    (dav_svn_append_locks repos lockdb resource make_indirect d w).2.calls
        = w.calls ++ [repos_call.attach_lock
            { path := resource.info.repos_path
              token := d.locktoken.uuid_str
              owner := d.auth_user
              comment := d.owner
              creation_date := w.now
              expiration_date := wrap64 (d.timeout * 1000000) }
            lockdb.info.force lockdb.info.working_revnum]
    ∧ (dav_svn_append_locks repos lockdb resource make_indirect d w).2.fs
        = (repos.svn_repos_fs_attach_lock w.fs
            { path := resource.info.repos_path
              token := d.locktoken.uuid_str
              owner := d.auth_user
              comment := d.owner
              creation_date := w.now
              expiration_date := wrap64 (d.timeout * 1000000) }
            lockdb.info.force lockdb.info.working_revnum).2
    ∧ (int64_range (d.timeout * 1000000) →
        (dav_svn_append_locks repos lockdb resource make_indirect d w).2.calls
          = w.calls ++ [repos_call.attach_lock
              { path := resource.info.repos_path
                token := d.locktoken.uuid_str
                owner := d.auth_user
                comment := d.owner
                creation_date := w.now
                expiration_date := d.timeout * 1000000 }
              lockdb.info.force lockdb.info.working_revnum]) := by
  have hslock : dav_lock_to_svn_lock w.now d resource.info.repos_path
      = .ok { path := resource.info.repos_path
              token := d.locktoken.uuid_str
              owner := d.auth_user
              comment := d.owner
              creation_date := w.now
              expiration_date := wrap64 (d.timeout * 1000000) } := by
    rw [dav_lock_to_svn_lock_of_accepted w.now d _ htype hscope]
    by_cases hzero : d.timeout = 0
    · rw [if_neg (not_not.mpr hzero), hzero]
      rfl
    · rw [if_pos hzero, usec_product_wrap]
  have hcalls := append_locks_calls_of_accepted repos lockdb resource make_indirect d w _ hread
    hnext hslock
  refine ⟨hcalls.1, hcalls.2, ?_⟩
  intro hproduct
  rw [hcalls.1, wrap64_of_int64_range _ hproduct]

/-- Witness for C12 (amended): the LOCK request of alice (note "me", timeout 3600)
on /a/b, through a lockdb opened for a request without custom headers. -/
theorem append_locks_attaches_once_witness :
    (dav_svn_open_lockdb { headers_in := [] } 0 0 sample_world).1 = .ok plain_lockdb
    ∧ plain_lockdb.info.force = false
    ∧ plain_lockdb.info.working_revnum = SVN_INVALID_REVNUM
    ∧ check_readability sample_repos sample_world resource_ab.info.repos_path = .ok true
    ∧ (dav_svn_append_locks sample_repos plain_lockdb resource_ab 0 dav_lock_request
        sample_world).2.calls
        = [repos_call.attach_lock
            { path := some "/a/b"
              token := "tok-new"
              owner := some "alice"
              comment := some "me"
              creation_date := 5000000
              expiration_date := 3600000000 }
            false SVN_INVALID_REVNUM] :=
  ⟨rfl, rfl, rfl, rfl,
    (append_locks_attaches_once sample_repos plain_lockdb resource_ab 0 dav_lock_request
      sample_world rfl rfl rfl rfl).2.2 (by decide)⟩

/-- C13: for a readable resource and a DAV lock record with a successor in its
chain, `append_locks` fails with 400 / save-lock ("Tried to attach multiple
locks to a resource."), whatever the types and scopes in the chain, and leaves
the world as it was: no repository call is made. -/
theorem append_locks_rejects_chain {σ : Type} (repos : dav_svn_repos σ) (lockdb : dav_lockdb)
    (resource : dav_resource) (make_indirect : Int) (d d2 : dav_lock) (w : world σ)
    (hread : check_readability repos w resource.info.repos_path = .ok true)
    (hnext : d.next = some d2) :
    dav_svn_append_locks repos lockdb resource make_indirect d w
        = (.error (dav_new_error 400 dav_error_id.DAV_ERR_LOCK_SAVE_LOCK
            "Tried to attach multiple locks to a resource."), w)
    ∧ fails_with (dav_svn_append_locks repos lockdb resource make_indirect d w).1
        400 dav_error_id.DAV_ERR_LOCK_SAVE_LOCK
    ∧ (dav_svn_append_locks repos lockdb resource make_indirect d w).2.calls = w.calls := by
  have h : dav_svn_append_locks repos lockdb resource make_indirect d w
      = (.error (dav_new_error 400 dav_error_id.DAV_ERR_LOCK_SAVE_LOCK
          "Tried to attach multiple locks to a resource."), w) := by
    simp only [dav_svn_append_locks, hread, hnext]
    rfl
  rw [h]
  exact ⟨rfl, ⟨_, rfl, rfl, rfl⟩, rfl⟩

/-- Witness for C13: a chain of two lock records, the second a shared lock, on
the readable path /a/b. -/
theorem append_locks_rejects_chain_witness :
    check_readability sample_repos sample_world resource_ab.info.repos_path = .ok true
    ∧ chained_lock_request.next
        = some { dav_lock_request with scope := DAV_LOCKSCOPE_SHARED }
    ∧ dav_svn_append_locks sample_repos plain_lockdb resource_ab 0 chained_lock_request
        sample_world
        = (.error (dav_new_error 400 dav_error_id.DAV_ERR_LOCK_SAVE_LOCK
            "Tried to attach multiple locks to a resource."), sample_world)
    ∧ (dav_svn_append_locks sample_repos plain_lockdb resource_ab 0 chained_lock_request
        sample_world).2.calls = [] :=
  have h := append_locks_rejects_chain sample_repos plain_lockdb resource_ab 0
    chained_lock_request { dav_lock_request with scope := DAV_LOCKSCOPE_SHARED } sample_world
    rfl rfl
  ⟨rfl, rfl, h.1, h.2.2⟩

/-! ## Repository failures of `append_locks` and `remove_lock` -/

theorem remove_lock_of_token {σ : Type} (repos : dav_svn_repos σ) (lockdb : dav_lockdb)
    (resource : dav_resource) (locktoken : Option dav_locktoken) (w : world σ)
    (p tok : String)
    (hpath : resource.info.repos_path = some p)
    (hread : check_readability repos w (some p) = .ok true)
    (htok : (∃ t, locktoken = some t ∧ t.uuid_str = tok)
      ∨ (locktoken = none
          ∧ ∃ L, repos.svn_fs_get_lock_from_path w.fs p = .ok (some L) ∧ L.token = tok)) :
    dav_svn_remove_lock repos lockdb resource locktoken w
      = match (repos.svn_repos_fs_unlock w.fs tok lockdb.info.force).1 with
        | some serr =>
          if serr.apr_err = svn_errno.SVN_ERR_FS_NO_USER then
            (.error (dav_new_error HTTP_UNAUTHORIZED dav_error_id.DAV_ERR_LOCK_SAVE_LOCK
              "Anonymous lock removal is not allowed."),
              { w with
                fs := (repos.svn_repos_fs_unlock w.fs tok lockdb.info.force).2
                calls := w.calls ++ [repos_call.unlock tok lockdb.info.force] })
          else
            (.error (dav_svn_convert_err serr HTTP_INTERNAL_SERVER_ERROR
              "Failed to remove a lock."),
              { w with
                fs := (repos.svn_repos_fs_unlock w.fs tok lockdb.info.force).2
                calls := w.calls ++ [repos_call.unlock tok lockdb.info.force] })
        | none =>
          (.ok (),
            { w with
              fs := (repos.svn_repos_fs_unlock w.fs tok lockdb.info.force).2
              calls := w.calls ++ [repos_call.unlock tok lockdb.info.force] }) := by
  rcases htok with ⟨t, ht, htu⟩ | ⟨hnone, L, hL, hLt⟩
  · subst htu
    simp only [dav_svn_remove_lock, hpath, hread, ht]
    rfl
  · subst hLt
    simp only [dav_svn_remove_lock, hpath, hread, hnone, hL]
    rfl

/-- C14: on a readable path, `append_locks` of an accepted single lock and
`remove_lock` of a token (the given one, or the token of the lock found on the
path when none is given) map the outcome of their repository call alike: the
no-user error becomes 401 / save-lock, any other error becomes the error that
`dav_svn_convert_err` builds for status 500, and the function succeeds exactly
when the repository call does. -/
theorem repository_failure_mapping {σ : Type} (repos : dav_svn_repos σ) (lockdb : dav_lockdb)
    (resource : dav_resource) (make_indirect : Int) (d : dav_lock)
    (locktoken : Option dav_locktoken) (w : world σ) (p tok : String) (slock : svn_lock_t)
    (hpath : resource.info.repos_path = some p)
    (hread : check_readability repos w (some p) = .ok true)
    (hnext : d.next = none)
    (hslock : dav_lock_to_svn_lock w.now d (some p) = .ok slock)
    (htok : (∃ t, locktoken = some t ∧ t.uuid_str = tok)
      ∨ (locktoken = none
          ∧ ∃ L, repos.svn_fs_get_lock_from_path w.fs p = .ok (some L) ∧ L.token = tok)) :
    (∀ serr, (repos.svn_repos_fs_attach_lock w.fs slock lockdb.info.force
          lockdb.info.working_revnum).1 = some serr →
        (serr.apr_err = svn_errno.SVN_ERR_FS_NO_USER →
          fails_with (dav_svn_append_locks repos lockdb resource make_indirect d w).1
            401 dav_error_id.DAV_ERR_LOCK_SAVE_LOCK)
        ∧ (serr.apr_err ≠ svn_errno.SVN_ERR_FS_NO_USER →
          (dav_svn_append_locks repos lockdb resource make_indirect d w).1
            = .error (dav_svn_convert_err serr 500 "Failed to create new lock.")
          ∧ (dav_svn_convert_err serr 500 "Failed to create new lock.").status = 500))
    ∧ ((dav_svn_append_locks repos lockdb resource make_indirect d w).1 = .ok ()
        ↔ (repos.svn_repos_fs_attach_lock w.fs slock lockdb.info.force
            lockdb.info.working_revnum).1 = none)
    ∧ (∀ serr, (repos.svn_repos_fs_unlock w.fs tok lockdb.info.force).1 = some serr →
        (serr.apr_err = svn_errno.SVN_ERR_FS_NO_USER →
          fails_with (dav_svn_remove_lock repos lockdb resource locktoken w).1
            401 dav_error_id.DAV_ERR_LOCK_SAVE_LOCK)
        ∧ (serr.apr_err ≠ svn_errno.SVN_ERR_FS_NO_USER →
          (dav_svn_remove_lock repos lockdb resource locktoken w).1
            = .error (dav_svn_convert_err serr 500 "Failed to remove a lock.")
          ∧ (dav_svn_convert_err serr 500 "Failed to remove a lock.").status = 500))
    ∧ ((dav_svn_remove_lock repos lockdb resource locktoken w).1 = .ok ()
        ↔ (repos.svn_repos_fs_unlock w.fs tok lockdb.info.force).1 = none) := by
  have hread1 : check_readability repos w resource.info.repos_path = .ok true := by
    rw [hpath]
    exact hread
  have hslock1 : dav_lock_to_svn_lock w.now d resource.info.repos_path = .ok slock := by
    rw [hpath]
    exact hslock
  rw [append_locks_of_accepted repos lockdb resource make_indirect d w slock hread1 hnext
    hslock1, remove_lock_of_token repos lockdb resource locktoken w p tok hpath hread htok]
  refine ⟨?_, ?_, ?_, ?_⟩
  · intro serr hserr
    rw [hserr]
    constructor
    · intro hu
      simp only [hu, if_true]
      exact ⟨_, rfl, rfl, rfl⟩
    · intro hu
      simp only [hu, if_false]
      exact ⟨rfl, rfl⟩
  · cases hattach : (repos.svn_repos_fs_attach_lock w.fs slock lockdb.info.force
        lockdb.info.working_revnum).1 with
    | none => simp
    | some serr =>
      by_cases hu : serr.apr_err = svn_errno.SVN_ERR_FS_NO_USER <;> simp [hu]
  · intro serr hserr
    rw [hserr]
    constructor
    · intro hu
      simp only [hu, if_true]
      exact ⟨_, rfl, rfl, rfl⟩
    · intro hu
      simp only [hu, if_false]
      exact ⟨rfl, rfl⟩
  · cases hunlock : (repos.svn_repos_fs_unlock w.fs tok lockdb.info.force).1 with
    | none => simp
    | some serr =>
      by_cases hu : serr.apr_err = svn_errno.SVN_ERR_FS_NO_USER <;> simp [hu]

/-- Witness for C14, on the readable path /a/b of the sample repository: the
request of alice is attached and the lock found on the path is removed; the
anonymous request fails with 401 / save-lock; and on the broken repository
both functions fail with status 500. -/
theorem repository_failure_mapping_witness :
    (dav_svn_append_locks sample_repos plain_lockdb resource_ab 0 dav_lock_request
        sample_world).1 = .ok ()
    ∧ (dav_svn_remove_lock sample_repos plain_lockdb resource_ab none sample_world).1 = .ok ()
    ∧ fails_with (dav_svn_append_locks sample_repos plain_lockdb resource_ab 0
        anonymous_lock_request sample_world).1 401 dav_error_id.DAV_ERR_LOCK_SAVE_LOCK
    ∧ fails_with (dav_svn_append_locks broken_repos plain_lockdb resource_ab 0
        dav_lock_request sample_world).1 500 (dav_error_id.svn (svn_errno.other 160004))
    ∧ fails_with (dav_svn_remove_lock broken_repos plain_lockdb resource_ab
        (some { uuid_str := "tok-ab" }) sample_world).1
        500 (dav_error_id.svn (svn_errno.other 160004)) :=
  have hgood := repository_failure_mapping sample_repos plain_lockdb resource_ab 0
    dav_lock_request none sample_world "/a/b" "tok-ab" _ rfl rfl rfl rfl
    (Or.inr ⟨rfl, lock_ab, rfl, rfl⟩)
  have hanon := repository_failure_mapping sample_repos plain_lockdb resource_ab 0
    anonymous_lock_request none sample_world "/a/b" "tok-ab" _ rfl rfl rfl rfl
    (Or.inr ⟨rfl, lock_ab, rfl, rfl⟩)
  have hbroken := repository_failure_mapping broken_repos plain_lockdb resource_ab 0
    dav_lock_request (some { uuid_str := "tok-ab" }) sample_world "/a/b" "tok-ab" _ rfl rfl rfl
    rfl (Or.inl ⟨_, rfl, rfl⟩)
  ⟨hgood.2.1.mpr rfl, hgood.2.2.2.mpr rfl,
    (hanon.1 _ rfl).1 rfl,
    ⟨_, ((hbroken.1 _ rfl).2 (by decide)).1, rfl, rfl⟩,
    ⟨_, ((hbroken.2.2.1 _ rfl).2 (by decide)).1, rfl, rfl⟩⟩

/-! ## The creation-date response header -/

theorem apr_table_setn_nil (key val : String) : apr_table_setn [] key val = [(key, val)] := rfl

theorem apr_table_setn_cons (e : String × String) (t : List (String × String))
    (key val : String) :
    apr_table_setn (e :: t) key val
      = if strcasecmp e.1 key != 0 then e :: apr_table_setn t key val
        else (key, val) :: t.filter (fun e => strcasecmp e.1 key != 0) := by
  unfold apr_table_setn
  rw [List.span_eq_take_drop, List.span_eq_take_drop]
  by_cases h : (strcasecmp e.1 key != 0) = true
  · rw [if_pos h]
    simp only [List.takeWhile_cons, List.dropWhile_cons, h, if_true]
    cases List.dropWhile (fun e => strcasecmp e.1 key != 0) t <;> rfl
  · rw [if_neg h]
    simp only [List.takeWhile_cons, List.dropWhile_cons, h]
    rfl

theorem strcasecmp_self (key : String) : strcasecmp key key = 0 := by
  unfold strcasecmp
  exact (strcmp_chars_eq_zero_iff _ _).mpr rfl

theorem apr_table_get_setn (t : List (String × String)) (key val : String) :
    apr_table_get (apr_table_setn t key val) key = some val := by
  induction t with
  | nil => simp [apr_table_setn_nil, apr_table_get, strcasecmp_self]
  | cons e t ih =>
    rw [apr_table_setn_cons]
    by_cases h : (strcasecmp e.1 key != 0) = true
    · rw [if_pos h]
      have hne : (strcasecmp e.1 key == 0) = false := by simpa using h
      unfold apr_table_get at ih ⊢
      simp only [List.find?_cons, hne]
      exact ih
    · rw [if_neg h]
      simp [apr_table_get, strcasecmp_self]

theorem apr_table_setn_filter (t : List (String × String)) (key val : String) :
    (apr_table_setn t key val).filter (fun e => strcasecmp e.1 key != 0)
      = t.filter (fun e => strcasecmp e.1 key != 0) := by
  induction t with
  | nil => simp [apr_table_setn_nil, strcasecmp_self]
  | cons e t ih =>
    rw [apr_table_setn_cons]
    by_cases h : (strcasecmp e.1 key != 0) = true
    · rw [if_pos h]
      simp only [List.filter_cons, h, if_true, ih]
    · rw [if_neg h]
      simp only [List.filter_cons, h, List.filter_filter]
      simp [strcasecmp_self]

theorem get_locks_keeps_headers {σ : Type} (repos : dav_svn_repos σ) (lockdb : dav_lockdb)
    (resource : dav_resource) (calltype : Int) (w : world σ) :
    (dav_svn_get_locks repos lockdb resource calltype w).2 = w := by
  unfold dav_svn_get_locks
  repeat' split
  all_goals rfl

theorem find_lock_keeps_headers {σ : Type} (repos : dav_svn_repos σ) (lockdb : dav_lockdb)
    (resource : dav_resource) (locktoken : dav_locktoken) (partial_ok : Int) (w : world σ) :
    (dav_svn_find_lock repos lockdb resource locktoken partial_ok w).2 = w := by
  unfold dav_svn_find_lock
  repeat' split
  all_goals rfl

theorem has_locks_keeps_headers {σ : Type} (repos : dav_svn_repos σ) (lockdb : dav_lockdb)
    (resource : dav_resource) (w : world σ) :
    (dav_svn_has_locks repos lockdb resource w).2 = w := by
  unfold dav_svn_has_locks
  repeat' split
  all_goals rfl

theorem create_lock_keeps_headers {σ : Type} (repos : dav_svn_repos σ) (lockdb : dav_lockdb)
    (resource : dav_resource) (w : world σ) :
    (dav_svn_create_lock repos lockdb resource w).2 = w := by
  unfold dav_svn_create_lock
  repeat' split
  all_goals rfl

theorem remove_lock_keeps_headers {σ : Type} (repos : dav_svn_repos σ) (lockdb : dav_lockdb)
    (resource : dav_resource) (locktoken : Option dav_locktoken) (w : world σ) :
    (dav_svn_remove_lock repos lockdb resource locktoken w).2.headers_out = w.headers_out := by
  simp only [dav_svn_remove_lock]
  repeat' split
  all_goals rfl

theorem refresh_locks_keeps_headers {σ : Type} (repos : dav_svn_repos σ) (lockdb : dav_lockdb)
    (resource : dav_resource) (ltl : dav_locktoken_list) (new_time : Int) (w : world σ) :
    (dav_svn_refresh_locks repos lockdb resource ltl new_time w).2.headers_out
      = w.headers_out := by
  simp only [dav_svn_refresh_locks]
  repeat' split
  all_goals rfl

theorem creation_date_of_translated (now : Int) (d : dav_lock) (path : Option String)
    (slock : svn_lock_t) (h : dav_lock_to_svn_lock now d path = .ok slock) :
    slock.creation_date = now := by
  unfold dav_lock_to_svn_lock at h
  split at h
  · cases h
  · split at h
    · cases h
    · cases h
      rfl

theorem append_locks_headers {σ : Type} (repos : dav_svn_repos σ) (lockdb : dav_lockdb)
    (resource : dav_resource) (make_indirect : Int) (lock : dav_lock) (w : world σ) :
    ((∃ e, (dav_svn_append_locks repos lockdb resource make_indirect lock w).1 = .error e) →
      (dav_svn_append_locks repos lockdb resource make_indirect lock w).2.headers_out
        = w.headers_out)
    ∧ ((dav_svn_append_locks repos lockdb resource make_indirect lock w).1 = .ok () →
      ∃ slock,
        dav_lock_to_svn_lock w.now lock resource.info.repos_path = .ok slock
        ∧ slock.creation_date = w.now
        ∧ (dav_svn_append_locks repos lockdb resource make_indirect lock w).2.calls
            = w.calls ++ [repos_call.attach_lock slock lockdb.info.force
                lockdb.info.working_revnum]
        ∧ (dav_svn_append_locks repos lockdb resource make_indirect lock w).2.headers_out
            = apr_table_setn w.headers_out SVN_DAV_CREATIONDATE_HEADER
                (repos.svn_time_to_cstring slock.creation_date)) := by
  cases hread : check_readability repos w resource.info.repos_path with
  | error derr =>
    simp only [dav_svn_append_locks, hread]
    exact ⟨fun _ => trivial, fun h => by cases h⟩
  | ok readable =>
    cases readable with
    | false =>
      simp only [dav_svn_append_locks, hread]
      exact ⟨fun _ => rfl, fun h => by cases h⟩
    | true =>
      cases hnext : lock.next with
      | some d2 =>
        simp only [dav_svn_append_locks, hread, hnext]
        exact ⟨fun _ => rfl, fun h => by cases h⟩
      | none =>
        cases hslock : dav_lock_to_svn_lock w.now lock resource.info.repos_path with
        | error derr =>
          simp only [dav_svn_append_locks, hread, hnext, hslock]
          exact ⟨fun _ => rfl, fun h => by cases h⟩
        | ok slock =>
          rw [append_locks_of_accepted repos lockdb resource make_indirect lock w slock hread
            hnext hslock]
          cases (repos.svn_repos_fs_attach_lock w.fs slock lockdb.info.force
              lockdb.info.working_revnum).1 with
          | none =>
            refine ⟨fun h => ?_, fun _ => ⟨slock, rfl, ?_, rfl, rfl⟩⟩
            · obtain ⟨e, he⟩ := h
              cases he
            · exact creation_date_of_translated _ _ _ _ hslock
          | some serr =>
            by_cases hu : serr.apr_err = svn_errno.SVN_ERR_FS_NO_USER
            · simp only [hu, if_true]
              exact ⟨fun _ => trivial, fun h => by cases h⟩
            · simp only [hu, if_false]
              exact ⟨fun _ => trivial, fun h => by cases h⟩

/-- C15: the response headers are changed by a successful `append_locks` only.
`open_lockdb`, `create_lock`, `get_locks`, `find_lock`, `has_locks`,
`remove_lock` and `refresh_locks` leave them as they were, whatever they
return, and so does a failing `append_locks`; a successful `append_locks` sets
the creation-date header to the formatted creation date of the record it
passed to `attach_lock` and leaves every entry under another name as it was. -/
theorem creation_date_header_frame {σ : Type} (repos : dav_svn_repos σ) (lockdb : dav_lockdb)
    (resource : dav_resource) (w : world σ) (r : request_rec)
    (ro force calltype partial_ok make_indirect new_time : Int) (locktoken : dav_locktoken)
    (remove_token : Option dav_locktoken) (ltl : dav_locktoken_list) (lock : dav_lock) :
    (dav_svn_open_lockdb r ro force w).2.headers_out = w.headers_out
    ∧ (dav_svn_create_lock repos lockdb resource w).2.headers_out = w.headers_out
    ∧ (dav_svn_get_locks repos lockdb resource calltype w).2.headers_out = w.headers_out
    ∧ (dav_svn_find_lock repos lockdb resource locktoken partial_ok w).2.headers_out
        = w.headers_out
    ∧ (dav_svn_has_locks repos lockdb resource w).2.headers_out = w.headers_out
    ∧ (dav_svn_remove_lock repos lockdb resource remove_token w).2.headers_out = w.headers_out
    ∧ (dav_svn_refresh_locks repos lockdb resource ltl new_time w).2.headers_out
        = w.headers_out
    ∧ ((∃ e, (dav_svn_append_locks repos lockdb resource make_indirect lock w).1 = .error e) →
        (dav_svn_append_locks repos lockdb resource make_indirect lock w).2.headers_out
          = w.headers_out)
    ∧ ((dav_svn_append_locks repos lockdb resource make_indirect lock w).1 = .ok () →
        ∃ slock,
          (dav_svn_append_locks repos lockdb resource make_indirect lock w).2.calls
            = w.calls ++ [repos_call.attach_lock slock lockdb.info.force
                lockdb.info.working_revnum]
          ∧ apr_table_get
              (dav_svn_append_locks repos lockdb resource make_indirect lock w).2.headers_out
              SVN_DAV_CREATIONDATE_HEADER
            = some (repos.svn_time_to_cstring slock.creation_date)
          ∧ (dav_svn_append_locks repos lockdb resource make_indirect lock w).2.headers_out.filter
              (fun e => strcasecmp e.1 SVN_DAV_CREATIONDATE_HEADER != 0)
            = w.headers_out.filter
                (fun e => strcasecmp e.1 SVN_DAV_CREATIONDATE_HEADER != 0)) := by
  refine ⟨rfl, ?_, ?_, ?_, ?_, remove_lock_keeps_headers repos lockdb resource remove_token w,
    refresh_locks_keeps_headers repos lockdb resource ltl new_time w,
    (append_locks_headers repos lockdb resource make_indirect lock w).1, ?_⟩
  · rw [create_lock_keeps_headers]
  · rw [get_locks_keeps_headers]
  · rw [find_lock_keeps_headers]
  · rw [has_locks_keeps_headers]
  · intro hok
    obtain ⟨slock, -, -, hcalls, hheaders⟩ :=
      (append_locks_headers repos lockdb resource make_indirect lock w).2 hok
    refine ⟨slock, hcalls, ?_, ?_⟩
    · rw [hheaders]
      exact apr_table_get_setn _ _ _
    · rw [hheaders]
      exact apr_table_setn_filter _ _ _

/-- Witness for C15, in the repository that holds no lock on /a/b and has one
response header already: the request of alice succeeds and adds the
creation-date header after the header that was there; the anonymous request
fails and the refresh of the lock on /x/y succeeds, both without touching the
headers. -/
theorem creation_date_header_frame_witness :
    (dav_svn_append_locks sample_repos plain_lockdb resource_ab 0 dav_lock_request world_xy).1
        = .ok ()
    ∧ (dav_svn_append_locks sample_repos plain_lockdb resource_ab 0 dav_lock_request
        world_xy).2.headers_out
        = [("Content-Type", "text/xml"), ("X-SVN-Creation-Date", "later")]
    ∧ apr_table_get (dav_svn_append_locks sample_repos plain_lockdb resource_ab 0
        dav_lock_request world_xy).2.headers_out SVN_DAV_CREATIONDATE_HEADER
        = some (sample_repos.svn_time_to_cstring 5000000)
    ∧ fails_with (dav_svn_append_locks sample_repos plain_lockdb resource_ab 0
        anonymous_lock_request world_xy).1 401 dav_error_id.DAV_ERR_LOCK_SAVE_LOCK
    ∧ (dav_svn_append_locks sample_repos plain_lockdb resource_ab 0 anonymous_lock_request
        world_xy).2.headers_out = [("Content-Type", "text/xml")]
    ∧ (dav_svn_refresh_locks sample_repos plain_lockdb
        { resource_ab with info := { repos_path := some "/x/y" } }
        { locktoken := { uuid_str := "tok-xy" }, next := [] } 7200 world_xy).2.headers_out
        = [("Content-Type", "text/xml")] :=
  have h := creation_date_header_frame sample_repos plain_lockdb resource_ab world_xy
    { headers_in := [] } 0 0 0 0 0 7200 { uuid_str := "tok-xy" } none
    { locktoken := { uuid_str := "tok-xy" }, next := [] } anonymous_lock_request
  ⟨rfl, rfl, rfl, ⟨_, rfl, rfl, rfl⟩, h.2.2.2.2.2.2.2.1 ⟨_, rfl⟩, rfl⟩

/-- C16, as stated, fails: the refresh of the lock on /a/b in the sample
repository succeeds and attaches the record with creation date 1,000,000, and
the response headers are empty afterwards as they were before: there is no
creation-date header. -/
theorem refresh_locks_sets_no_header :
    (dav_svn_refresh_locks sample_repos plain_lockdb resource_ab
        { locktoken := { uuid_str := "tok-ab" }, next := [] } 7200 sample_world).1
        = .ok (some (svn_lock_to_dav_lock { lock_ab with expiration_date := 7200000000 } true))
    ∧ (dav_svn_refresh_locks sample_repos plain_lockdb resource_ab
        { locktoken := { uuid_str := "tok-ab" }, next := [] } 7200 sample_world).2.calls
        = [repos_call.attach_lock { lock_ab with expiration_date := 7200000000 } true
            SVN_INVALID_REVNUM]
    ∧ (dav_svn_refresh_locks sample_repos plain_lockdb resource_ab
        { locktoken := { uuid_str := "tok-ab" }, next := [] } 7200 sample_world).2.headers_out
        = []
    ∧ apr_table_get (dav_svn_refresh_locks sample_repos plain_lockdb resource_ab
        { locktoken := { uuid_str := "tok-ab" }, next := [] } 7200 sample_world).2.headers_out
        SVN_DAV_CREATIONDATE_HEADER = none :=
  ⟨rfl, rfl, rfl, rfl⟩

/-- C16, amended: every successful `append_locks` sets the creation-date response
header to the formatted creation timestamp of the lock it attached;
`refresh_locks`, successful or not, leaves the response headers as they
were. -/
theorem creation_date_header_on_append_only {σ : Type} (repos : dav_svn_repos σ)
    (lockdb : dav_lockdb) (resource : dav_resource) (w : world σ)
    (make_indirect new_time : Int) (ltl : dav_locktoken_list) (lock : dav_lock) :
    ((dav_svn_append_locks repos lockdb resource make_indirect lock w).1 = .ok () →
        ∃ slock,
          (dav_svn_append_locks repos lockdb resource make_indirect lock w).2.calls
            = w.calls ++ [repos_call.attach_lock slock lockdb.info.force
                lockdb.info.working_revnum]
          ∧ apr_table_get
              (dav_svn_append_locks repos lockdb resource make_indirect lock w).2.headers_out
              SVN_DAV_CREATIONDATE_HEADER
            = some (repos.svn_time_to_cstring slock.creation_date))
    ∧ (dav_svn_refresh_locks repos lockdb resource ltl new_time w).2.headers_out
        = w.headers_out := by
  refine ⟨?_, refresh_locks_keeps_headers repos lockdb resource ltl new_time w⟩
  intro hok
  obtain ⟨slock, -, -, hcalls, hheaders⟩ :=
    (append_locks_headers repos lockdb resource make_indirect lock w).2 hok
  refine ⟨slock, hcalls, ?_⟩
  rw [hheaders]
  exact apr_table_get_setn _ _ _

/-- Witness for C16 (amended): the successful request of alice on /a/b sets the
header to the formatted clock value, the creation date of the record it
attached. -/
theorem creation_date_header_on_append_only_witness :
    (dav_svn_append_locks sample_repos plain_lockdb resource_ab 0 dav_lock_request
        sample_world).1 = .ok ()
    ∧ ∃ slock,
        (dav_svn_append_locks sample_repos plain_lockdb resource_ab 0 dav_lock_request
          sample_world).2.calls
          = sample_world.calls ++ [repos_call.attach_lock slock plain_lockdb.info.force
              plain_lockdb.info.working_revnum]
        ∧ apr_table_get
            (dav_svn_append_locks sample_repos plain_lockdb resource_ab 0 dav_lock_request
              sample_world).2.headers_out
            SVN_DAV_CREATIONDATE_HEADER
          = some (sample_repos.svn_time_to_cstring slock.creation_date) :=
  ⟨rfl, (creation_date_header_on_append_only sample_repos plain_lockdb resource_ab sample_world
    0 7200 { locktoken := { uuid_str := "tok-ab" }, next := [] } dav_lock_request).1 rfl⟩

/-! ## Refreshing a lock: `refresh_locks` -/

theorem paths_differ_of_ne (p q : String) (h : p ≠ q) :
    paths_differ (some p) (some q) = true := by
  have hne : strcmp p q ≠ 0 := fun h0 => h ((strcmp_eq_zero_iff p q).mp h0)
  simp [paths_differ, hne]

theorem paths_differ_self (p : String) : paths_differ (some p) (some p) = false := by
  simp [paths_differ, (strcmp_eq_zero_iff p p).mpr rfl]

/-- C17: for a readable resource and a token whose repository lock is on a path
other than the path of the resource (a resource without a repository path
included), `refresh_locks` fails with 401 / save-lock ("Lock refresh request
doesn't match existing lock.") and leaves the world as it was: `attach_lock`
is not called and the repository state, with the expiration date of the lock,
is unchanged. -/
theorem refresh_locks_rejects_other_path {σ : Type} (repos : dav_svn_repos σ)
    (lockdb : dav_lockdb) (resource : dav_resource) (ltl : dav_locktoken_list)
    (new_time : Int) (w : world σ) (L : svn_lock_t) (q : String)
    (hread : check_readability repos w resource.info.repos_path = .ok true)
    (hfound : repos.svn_fs_get_lock_from_token w.fs ltl.locktoken.uuid_str
      = token_lookup.found L)
    (hlock : L.path = some q)
    (hother : resource.info.repos_path ≠ some q) :
    dav_svn_refresh_locks repos lockdb resource ltl new_time w
        = (.error (dav_new_error 401 dav_error_id.DAV_ERR_LOCK_SAVE_LOCK
            "Lock refresh request doesn\x27t match existing lock."), w)
    ∧ fails_with (dav_svn_refresh_locks repos lockdb resource ltl new_time w).1
        401 dav_error_id.DAV_ERR_LOCK_SAVE_LOCK
    ∧ (dav_svn_refresh_locks repos lockdb resource ltl new_time w).2.calls = w.calls
    ∧ (dav_svn_refresh_locks repos lockdb resource ltl new_time w).2.fs = w.fs := by
  have hcond : resource.info.repos_path = none
      ∨ paths_differ resource.info.repos_path L.path = true := by
    cases hp : resource.info.repos_path with
    | none => exact Or.inl rfl
    | some p =>
      right
      rw [hlock]
      apply paths_differ_of_ne
      intro hpq
      apply hother
      rw [hp, hpq]
  have h : dav_svn_refresh_locks repos lockdb resource ltl new_time w
      = (.error (dav_new_error 401 dav_error_id.DAV_ERR_LOCK_SAVE_LOCK
          "Lock refresh request doesn\x27t match existing lock."), w) := by
    simp only [dav_svn_refresh_locks, hread, hfound]
    rw [if_pos hcond]
    rfl
  rw [h]
  exact ⟨rfl, ⟨_, rfl, rfl, rfl⟩, rfl, rfl⟩

/-- Witness for C17: the token of the lock on /x/y presented for the resource
/a/b. -/
theorem refresh_locks_rejects_other_path_witness :
    check_readability sample_repos world_xy resource_ab.info.repos_path = .ok true
    ∧ sample_repos.svn_fs_get_lock_from_token world_xy.fs "tok-xy" = token_lookup.found lock_xy
    ∧ lock_xy.path = some "/x/y"
    ∧ resource_ab.info.repos_path = some "/a/b"
    ∧ fails_with (dav_svn_refresh_locks sample_repos plain_lockdb resource_ab
        { locktoken := { uuid_str := "tok-xy" }, next := [] } 7200 world_xy).1
        401 dav_error_id.DAV_ERR_LOCK_SAVE_LOCK
    ∧ (dav_svn_refresh_locks sample_repos plain_lockdb resource_ab
        { locktoken := { uuid_str := "tok-xy" }, next := [] } 7200 world_xy).2.calls = []
    ∧ (dav_svn_refresh_locks sample_repos plain_lockdb resource_ab
        { locktoken := { uuid_str := "tok-xy" }, next := [] } 7200 world_xy).2.fs.locks
        = [lock_xy] :=
  have h := refresh_locks_rejects_other_path sample_repos plain_lockdb resource_ab
    { locktoken := { uuid_str := "tok-xy" }, next := [] } 7200 world_xy lock_xy "/x/y"
    rfl rfl rfl (by decide)
  ⟨rfl, rfl, rfl, rfl, h.2.1, h.2.2.1, congrArg sample_fs.locks h.2.2.2⟩

theorem refresh_locks_of_same_path {σ : Type} (repos : dav_svn_repos σ) (lockdb : dav_lockdb)
    (resource : dav_resource) (ltl : dav_locktoken_list) (new_time : Int) (w : world σ)
    (L : svn_lock_t) (p : String)
    (hread : check_readability repos w resource.info.repos_path = .ok true)
    (hfound : repos.svn_fs_get_lock_from_token w.fs ltl.locktoken.uuid_str
      = token_lookup.found L)
    (hpath : resource.info.repos_path = some p)
    (hlock : L.path = some p) :
    dav_svn_refresh_locks repos lockdb resource ltl new_time w
      = match (repos.svn_repos_fs_attach_lock w.fs
            { L with expiration_date := wrap64 (wrap64 new_time * APR_USEC_PER_SEC) }
            true SVN_INVALID_REVNUM).1 with
        | some serr =>
          if serr.apr_err = svn_errno.SVN_ERR_FS_NO_USER then
            (.error (dav_new_error HTTP_UNAUTHORIZED dav_error_id.DAV_ERR_LOCK_SAVE_LOCK
              "Anonymous lock refreshing is not allowed."),
              { w with
                fs := (repos.svn_repos_fs_attach_lock w.fs
                  { L with expiration_date := wrap64 (wrap64 new_time * APR_USEC_PER_SEC) }
                  true SVN_INVALID_REVNUM).2
                calls := w.calls ++ [repos_call.attach_lock
                  { L with expiration_date := wrap64 (wrap64 new_time * APR_USEC_PER_SEC) }
                  true SVN_INVALID_REVNUM] })
          else
            (.error (dav_svn_convert_err serr HTTP_INTERNAL_SERVER_ERROR
              "Failed to refresh existing lock."),
              { w with
                fs := (repos.svn_repos_fs_attach_lock w.fs
                  { L with expiration_date := wrap64 (wrap64 new_time * APR_USEC_PER_SEC) }
                  true SVN_INVALID_REVNUM).2
                calls := w.calls ++ [repos_call.attach_lock
                  { L with expiration_date := wrap64 (wrap64 new_time * APR_USEC_PER_SEC) }
                  true SVN_INVALID_REVNUM] })
        | none =>
          (.ok (some (svn_lock_to_dav_lock
              { L with expiration_date := wrap64 (wrap64 new_time * APR_USEC_PER_SEC) }
              resource.exists)),
            { w with
              fs := (repos.svn_repos_fs_attach_lock w.fs
                { L with expiration_date := wrap64 (wrap64 new_time * APR_USEC_PER_SEC) }
                true SVN_INVALID_REVNUM).2
              calls := w.calls ++ [repos_call.attach_lock
                { L with expiration_date := wrap64 (wrap64 new_time * APR_USEC_PER_SEC) }
                true SVN_INVALID_REVNUM] }) := by
  have hcond : ¬ (resource.info.repos_path = none
      ∨ paths_differ resource.info.repos_path L.path = true) := by
    rw [hpath, hlock, paths_differ_self]
    simp
  simp only [dav_svn_refresh_locks, hread, hfound]
  rw [if_neg hcond]
  rfl

/-- C18, as stated, fails: refreshing the lock of bob on /a/b to the new time 2^58
seconds, whose value in microseconds is a multiple of 2^64, attaches the
record with the expiration date 0 ("never expires"), not
`new_time * 1,000,000`, and returns a lock with the infinite timeout. -/
theorem refresh_locks_product_overflows :
    check_readability sample_repos sample_world resource_ab.info.repos_path = .ok true
    ∧ sample_repos.svn_fs_get_lock_from_token sample_world.fs "tok-ab"
        = token_lookup.found lock_ab
    ∧ lock_ab.path = resource_ab.info.repos_path
    ∧ (dav_svn_refresh_locks sample_repos plain_lockdb resource_ab
        { locktoken := { uuid_str := "tok-ab" }, next := [] } (2 ^ 58) sample_world).2.calls
        = [repos_call.attach_lock
            { path := some "/a/b"
              token := "tok-ab"
              owner := some "bob"
              comment := some "editing"
              creation_date := 1000000
              expiration_date := 0 } true SVN_INVALID_REVNUM]
    ∧ (dav_svn_refresh_locks sample_repos plain_lockdb resource_ab
        { locktoken := { uuid_str := "tok-ab" }, next := [] } (2 ^ 58) sample_world).2.calls
        ≠ [repos_call.attach_lock
            { path := some "/a/b"
              token := "tok-ab"
              owner := some "bob"
              comment := some "editing"
              creation_date := 1000000
              expiration_date := 2 ^ 58 * 1000000 } true SVN_INVALID_REVNUM]
    ∧ ∃ dlock, (dav_svn_refresh_locks sample_repos plain_lockdb resource_ab
          { locktoken := { uuid_str := "tok-ab" }, next := [] } (2 ^ 58) sample_world).1
          = .ok (some dlock)
        ∧ dlock.timeout = DAV_TIMEOUT_INFINITE := by
  have hcalls : (dav_svn_refresh_locks sample_repos plain_lockdb resource_ab
      { locktoken := { uuid_str := "tok-ab" }, next := [] } (2 ^ 58) sample_world).2.calls
      = [repos_call.attach_lock
          { path := some "/a/b"
            token := "tok-ab"
            owner := some "bob"
            comment := some "editing"
            creation_date := 1000000
            expiration_date := 0 } true SVN_INVALID_REVNUM] := rfl
  refine ⟨rfl, rfl, rfl, hcalls, ?_, _, rfl, rfl⟩
  rw [hcalls]
  decide

/-- C18, amended: for a readable resource, a token list whose first token
resolves to a repository lock `L` on the path of the resource, and every new
time, `refresh_locks` makes exactly one repository call: `attach_lock` with
force true, the invalid revision and the record that is `L` with, as
expiration date, `new_time * 1,000,000` computed in signed 64-bit arithmetic;
that is `new_time * 1,000,000` itself whenever this value fits the signed
64-bit `apr_time_t`.  If the call succeeds the result is the one DAV lock
translated from that record.  Neither the lockdb nor the later tokens of the
list have any influence. -/
theorem refresh_locks_reattaches {σ : Type} (repos : dav_svn_repos σ) (lockdb : dav_lockdb)
    (resource : dav_resource) (ltl : dav_locktoken_list) (new_time : Int) (w : world σ)
    (L : svn_lock_t) (p : String)
    (hread : check_readability repos w resource.info.repos_path = .ok true)
    (hfound : repos.svn_fs_get_lock_from_token w.fs ltl.locktoken.uuid_str
      = token_lookup.found L)
    (hpath : resource.info.repos_path = some p)
    (hlock : L.path = some p) :
    (dav_svn_refresh_locks repos lockdb resource ltl new_time w).2.calls
        = w.calls ++ [repos_call.attach_lock
            { path := L.path
              token := L.token
              owner := L.owner
              comment := L.comment
              creation_date := L.creation_date
              expiration_date := wrap64 (new_time * 1000000) } true SVN_INVALID_REVNUM]
    ∧ (dav_svn_refresh_locks repos lockdb resource ltl new_time w).2.fs
        = (repos.svn_repos_fs_attach_lock w.fs
            { path := L.path
              token := L.token
              owner := L.owner
              comment := L.comment
              creation_date := L.creation_date
              expiration_date := wrap64 (new_time * 1000000) } true SVN_INVALID_REVNUM).2
    ∧ ((repos.svn_repos_fs_attach_lock w.fs
            { path := L.path
              token := L.token
              owner := L.owner
              comment := L.comment
              creation_date := L.creation_date
              expiration_date := wrap64 (new_time * 1000000) } true SVN_INVALID_REVNUM).1
          = none →
        (dav_svn_refresh_locks repos lockdb resource ltl new_time w).1
          = .ok (some (svn_lock_to_dav_lock
              { path := L.path
                token := L.token
                owner := L.owner
                comment := L.comment
                creation_date := L.creation_date
                expiration_date := wrap64 (new_time * 1000000) } resource.exists)))
    ∧ (∀ (lockdb2 : dav_lockdb) (later : List dav_locktoken),
        dav_svn_refresh_locks repos lockdb2 resource
            { locktoken := ltl.locktoken, next := later } new_time w
          = dav_svn_refresh_locks repos lockdb resource ltl new_time w)
    ∧ (int64_range (new_time * 1000000) →
        (dav_svn_refresh_locks repos lockdb resource ltl new_time w).2.calls
          = w.calls ++ [repos_call.attach_lock
              { path := L.path
                token := L.token
                owner := L.owner
                comment := L.comment
                creation_date := L.creation_date
                expiration_date := new_time * 1000000 } true SVN_INVALID_REVNUM]) := by
  have hcalls : (dav_svn_refresh_locks repos lockdb resource ltl new_time w).2.calls
      = w.calls ++ [repos_call.attach_lock
          { path := L.path
            token := L.token
            owner := L.owner
            comment := L.comment
            creation_date := L.creation_date
            expiration_date := wrap64 (new_time * 1000000) } true SVN_INVALID_REVNUM] := by
    rw [refresh_locks_of_same_path repos lockdb resource ltl new_time w L p hread hfound hpath
      hlock, usec_product_wrap]
    split
    · split <;> rfl
    · rfl
  refine ⟨hcalls, ?_, ?_, ?_, ?_⟩
  · rw [refresh_locks_of_same_path repos lockdb resource ltl new_time w L p hread hfound hpath
      hlock, usec_product_wrap]
    split
    · split <;> rfl
    · rfl
  · rw [refresh_locks_of_same_path repos lockdb resource ltl new_time w L p hread hfound hpath
      hlock, usec_product_wrap]
    intro hattach
    rw [hattach]
  · intro lockdb2 later
    rfl
  · intro hproduct
    rw [hcalls, wrap64_of_int64_range _ hproduct]

/-- Witness for C18 (amended): the lock of bob on /a/b is refreshed to 7200
seconds, through the lockdb without force and through a token list with a
second token. -/
theorem refresh_locks_reattaches_witness :
    check_readability sample_repos sample_world resource_ab.info.repos_path = .ok true
    ∧ sample_repos.svn_fs_get_lock_from_token sample_world.fs "tok-ab"
        = token_lookup.found lock_ab
    ∧ (dav_svn_refresh_locks sample_repos plain_lockdb resource_ab
        { locktoken := { uuid_str := "tok-ab" }, next := [{ uuid_str := "tok-secret" }] }
        7200 sample_world).2.calls
        = [repos_call.attach_lock
            { path := some "/a/b"
              token := "tok-ab"
              owner := some "bob"
              comment := some "editing"
              creation_date := 1000000
              expiration_date := 7200000000 } true SVN_INVALID_REVNUM]
    ∧ (dav_svn_refresh_locks sample_repos plain_lockdb resource_ab
        { locktoken := { uuid_str := "tok-ab" }, next := [{ uuid_str := "tok-secret" }] }
        7200 sample_world).1
        = .ok (some (svn_lock_to_dav_lock
            { path := some "/a/b"
              token := "tok-ab"
              owner := some "bob"
              comment := some "editing"
              creation_date := 1000000
              expiration_date := 7200000000 } true)) :=
  have h := refresh_locks_reattaches sample_repos plain_lockdb resource_ab
    { locktoken := { uuid_str := "tok-ab" }, next := [{ uuid_str := "tok-secret" }] }
    7200 sample_world lock_ab "/a/b" rfl rfl rfl rfl
  ⟨rfl, rfl, h.2.2.2.2 (by decide), h.2.2.1 rfl⟩

/-! ## Looking a lock up: `find_lock` and `has_locks` -/

/-- C19 fails on the code where the failed token lookup leaves a lock in the
variable `slock` of `find_lock`.  In the sample repository whose lookup
reports the lock on /a/b as expired and leaves it in `slock`, `find_lock`
returns the translation of that lock, not "not found".  For every repository
and readable resource: a lookup that fails with bad-lock-token or
lock-expired gives "not found" when it leaves `NULL` in `slock` and the
translation of the lock it leaves otherwise; a lookup that fails with another
error gives the error `dav_svn_convert_err` builds for status 500; and a
successful lookup gives the translation of the lock found, with the exists
flag of the resource. -/
theorem find_lock_after_lookup :
    check_readability expiring_repos sample_world resource_ab.info.repos_path = .ok true
    ∧ expiring_repos.svn_fs_get_lock_from_token sample_world.fs "tok-ab"
        = token_lookup.failed
            { apr_err := svn_errno.SVN_ERR_FS_LOCK_EXPIRED, message := "lock expired" }
            (some lock_ab)
    ∧ (dav_svn_find_lock expiring_repos plain_lockdb resource_ab { uuid_str := "tok-ab" } 0
        sample_world).1 = .ok (some (svn_lock_to_dav_lock lock_ab true))
    ∧ ∀ {σ : Type} (repos : dav_svn_repos σ) (lockdb : dav_lockdb) (resource : dav_resource)
        (locktoken : dav_locktoken) (partial_ok : Int) (w : world σ),
        check_readability repos w resource.info.repos_path = .ok true →
        (∀ serr slock,
            repos.svn_fs_get_lock_from_token w.fs locktoken.uuid_str
              = token_lookup.failed serr slock →
            (serr.apr_err = svn_errno.SVN_ERR_FS_BAD_LOCK_TOKEN
              ∨ serr.apr_err = svn_errno.SVN_ERR_FS_LOCK_EXPIRED) →
            (dav_svn_find_lock repos lockdb resource locktoken partial_ok w).1
              = .ok (slock.map (fun l => svn_lock_to_dav_lock l resource.exists)))
        ∧ (∀ serr slock,
            repos.svn_fs_get_lock_from_token w.fs locktoken.uuid_str
              = token_lookup.failed serr slock →
            ¬ (serr.apr_err = svn_errno.SVN_ERR_FS_BAD_LOCK_TOKEN
              ∨ serr.apr_err = svn_errno.SVN_ERR_FS_LOCK_EXPIRED) →
            (dav_svn_find_lock repos lockdb resource locktoken partial_ok w).1
                = .error (dav_svn_convert_err serr 500 "Failed to lookup lock via token.")
              ∧ (dav_svn_convert_err serr 500 "Failed to lookup lock via token.").status = 500)
        ∧ (∀ L,
            repos.svn_fs_get_lock_from_token w.fs locktoken.uuid_str = token_lookup.found L →
            (dav_svn_find_lock repos lockdb resource locktoken partial_ok w).1
              = .ok (some (svn_lock_to_dav_lock L resource.exists))) := by
  refine ⟨rfl, rfl, rfl, ?_⟩
  intro σ repos lockdb resource locktoken partial_ok w hread
  refine ⟨?_, ?_, ?_⟩
  · intro serr slock hlookup hcode
    simp only [dav_svn_find_lock, hread, hlookup]
    rw [if_neg (by decide), if_pos hcode]
    cases slock <;> rfl
  · intro serr slock hlookup hcode
    simp only [dav_svn_find_lock, hread, hlookup]
    rw [if_neg (by decide), if_neg hcode]
    exact ⟨rfl, rfl⟩
  · intro L hlookup
    simp only [dav_svn_find_lock, hread, hlookup]
    rfl

/-- C20: `has_locks` agrees with `get_locks`.  On every lockdb, resource and
repository state one fails exactly when the other does, with the very same
error, and when they succeed `locks_present` is 1 for a non-empty lock list
and 0 for an empty one. -/
theorem has_locks_agrees_with_get_locks {σ : Type} (repos : dav_svn_repos σ)
    (lockdb : dav_lockdb) (resource : dav_resource) (calltype : Int) (w : world σ) :
    (∀ e, (dav_svn_has_locks repos lockdb resource w).1 = .error e
        ↔ (dav_svn_get_locks repos lockdb resource calltype w).1 = .error e)
    ∧ (∀ locks, (dav_svn_get_locks repos lockdb resource calltype w).1 = .ok locks →
        (dav_svn_has_locks repos lockdb resource w).1 = .ok (if locks.isSome then 1 else 0))
    ∧ (∀ locks_present, (dav_svn_has_locks repos lockdb resource w).1 = .ok locks_present →
        ∃ locks, (dav_svn_get_locks repos lockdb resource calltype w).1 = .ok locks
          ∧ locks_present = if locks.isSome then 1 else 0) := by
  cases hpath : resource.info.repos_path with
  | none => simp [dav_svn_has_locks, dav_svn_get_locks, hpath]
  | some repos_path =>
    cases hforce : lockdb.info.force with
    | true => simp [dav_svn_has_locks, dav_svn_get_locks, hpath, hforce]
    | false =>
      cases hread : check_readability repos w (some repos_path) with
      | error derr => simp [dav_svn_has_locks, dav_svn_get_locks, hpath, hforce, hread]
      | ok readable =>
        cases readable with
        | false => simp [dav_svn_has_locks, dav_svn_get_locks, hpath, hforce, hread]
        | true =>
          cases hlock : repos.svn_fs_get_lock_from_path w.fs repos_path with
          | error serr =>
            simp [dav_svn_has_locks, dav_svn_get_locks, hpath, hforce, hread, hlock]
          | ok slock =>
            cases slock <;>
              simp [dav_svn_has_locks, dav_svn_get_locks, hpath, hforce, hread, hlock]

/-- Witness for C20, in the sample repository: on the locked path /a/b
`get_locks` returns the lock and `has_locks` 1; on /a/b in the repository
where only /x/y is locked they return nothing and 0; on the unreadable path
/secret both fail with 403 / save-lock. -/
theorem has_locks_agrees_with_get_locks_witness :
    (dav_svn_get_locks sample_repos plain_lockdb resource_ab 0 sample_world).1
        = .ok (some (svn_lock_to_dav_lock lock_ab true))
    ∧ (dav_svn_has_locks sample_repos plain_lockdb resource_ab sample_world).1 = .ok 1
    ∧ (dav_svn_get_locks sample_repos plain_lockdb resource_ab 0 world_xy).1 = .ok none
    ∧ (dav_svn_has_locks sample_repos plain_lockdb resource_ab world_xy).1 = .ok 0
    ∧ (dav_svn_get_locks sample_repos plain_lockdb resource_secret 0 sample_world).1
        = .error path_not_accessible
    ∧ (dav_svn_has_locks sample_repos plain_lockdb resource_secret sample_world).1
        = .error path_not_accessible :=
  have h1 := has_locks_agrees_with_get_locks sample_repos plain_lockdb resource_ab 0 sample_world
  have h2 := has_locks_agrees_with_get_locks sample_repos plain_lockdb resource_ab 0 world_xy
  have h3 := has_locks_agrees_with_get_locks sample_repos plain_lockdb resource_secret 0
    sample_world
  ⟨rfl, h1.2.1 _ rfl, rfl, h2.2.1 _ rfl, rfl, (h3.1 _).mpr rfl⟩

/-! ## Removing a lock without a token -/

/-- C21: `remove_lock` called with no token.  On a resource without a repository
path it returns success and the world as it was, whatever the authorization
gate and the repository would answer.  On a readable path that carries no
lock it returns success and the world as it was: `unlock` is not called.  On a
readable path that carries the lock `L` it makes one repository call,
`unlock` with the token of `L` and the force flag of the lockdb. -/
theorem remove_lock_without_token {σ : Type} (repos : dav_svn_repos σ) (lockdb : dav_lockdb)
    (resource : dav_resource) (w : world σ) :
    (resource.info.repos_path = none →
        dav_svn_remove_lock repos lockdb resource none w = (.ok (), w))
    ∧ (∀ p, resource.info.repos_path = some p →
        check_readability repos w (some p) = .ok true →
        repos.svn_fs_get_lock_from_path w.fs p = .ok none →
        dav_svn_remove_lock repos lockdb resource none w = (.ok (), w))
    ∧ (∀ p L, resource.info.repos_path = some p →
        check_readability repos w (some p) = .ok true →
        repos.svn_fs_get_lock_from_path w.fs p = .ok (some L) →
        (dav_svn_remove_lock repos lockdb resource none w).2.calls
            = w.calls ++ [repos_call.unlock L.token lockdb.info.force]
          ∧ (dav_svn_remove_lock repos lockdb resource none w).2.fs
            = (repos.svn_repos_fs_unlock w.fs L.token lockdb.info.force).2) := by
  refine ⟨?_, ?_, ?_⟩
  · intro hpath
    simp only [dav_svn_remove_lock, hpath]
  · intro p hpath hread hlock
    simp only [dav_svn_remove_lock, hpath, hread, hlock]
    rfl
  · intro p L hpath hread hlock
    rw [remove_lock_of_token repos lockdb resource none w p L.token hpath hread
      (Or.inr ⟨rfl, L, hlock, rfl⟩)]
    split
    · split <;> exact ⟨rfl, rfl⟩
    · exact ⟨rfl, rfl⟩

/-- Witness for C21, in the sample repository: a resource without a repository
path; the readable path /a/b where only /x/y is locked; and the readable path
/a/b carrying the lock of bob, whose token goes to `unlock` with force
false. -/
theorem remove_lock_without_token_witness :
    dav_svn_remove_lock sample_repos plain_lockdb
        { resource_ab with info := { repos_path := none } } none sample_world
        = (.ok (), sample_world)
    ∧ sample_repos.svn_fs_get_lock_from_path world_xy.fs "/a/b" = .ok none
    ∧ dav_svn_remove_lock sample_repos plain_lockdb resource_ab none world_xy
        = (.ok (), world_xy)
    ∧ sample_repos.svn_fs_get_lock_from_path sample_world.fs "/a/b" = .ok (some lock_ab)
    ∧ (dav_svn_remove_lock sample_repos plain_lockdb resource_ab none sample_world).1 = .ok ()
    ∧ (dav_svn_remove_lock sample_repos plain_lockdb resource_ab none sample_world).2.calls
        = [repos_call.unlock "tok-ab" false] :=
  have h1 := remove_lock_without_token sample_repos plain_lockdb
    { resource_ab with info := { repos_path := none } } sample_world
  have h2 := remove_lock_without_token sample_repos plain_lockdb resource_ab world_xy
  have h3 := remove_lock_without_token sample_repos plain_lockdb resource_ab sample_world
  ⟨h1.1 rfl, rfl, h2.2.1 "/a/b" rfl rfl rfl, rfl, rfl, (h3.2.2 "/a/b" lock_ab rfl rfl rfl).1⟩

/-! ## Opening the lock database -/

theorem strstr_offset_isSome_iff (hay needle : List Char) :
    (strstr_offset hay needle).isSome = true ↔ needle <:+: hay := by
  induction hay with
  | nil =>
    unfold strstr_offset
    by_cases h : needle.isPrefixOf [] = true
    · have hp : needle <+: [] := by simpa using h
      simp only [h, if_true, Option.isSome_some, true_iff]
      exact hp.isInfix
    · have hp : ¬ needle <+: [] := by simpa using h
      simp only [h, if_false]
      constructor
      · intro h0
        cases h0
      · intro hin
        exfalso
        apply hp
        have : needle = [] := List.eq_nil_of_infix_nil hin
        rw [this]
  | cons c rest ih =>
    unfold strstr_offset
    by_cases h : needle.isPrefixOf (c :: rest) = true
    · have hp : needle <+: c :: rest := by simpa using h
      simp only [h, if_true, Option.isSome_some, true_iff]
      exact hp.isInfix
    · have hp : ¬ needle <+: c :: rest := by simpa using h
      have hmap : (Option.map (fun i => i + 1) (strstr_offset rest needle)).isSome
          = (strstr_offset rest needle).isSome := by
        cases strstr_offset rest needle <;> rfl
      simp only [h, Bool.false_eq_true, if_false]
      rw [hmap, ih, List.infix_cons_iff]
      constructor
      · intro hin
        exact Or.inr hin
      · intro hin
        exact hin.resolve_left hp

/-- C22: `open_lockdb` always succeeds.  The force flag of the lockdb it produces
is true exactly when the request has a header named by `SVN_DAV_OPTIONS_HEADER`
whose value contains `force` as a substring; its `ro` flag is the `ro`
argument; the `force` argument of mod_dav changes nothing. -/
theorem open_lockdb_force_flag {σ : Type} (r : request_rec) (ro force : Int) (w : world σ) :
    ∃ db, (dav_svn_open_lockdb r ro force w).1 = .ok db
      ∧ (db.info.force = true
          ↔ ∃ options, apr_table_get r.headers_in SVN_DAV_OPTIONS_HEADER = some options
              ∧ "force".data <:+: options.data)
      ∧ db.ro = ro
      ∧ ∀ force2 : Int, dav_svn_open_lockdb r ro force2 w = dav_svn_open_lockdb r ro force w := by
  refine ⟨_, rfl, ?_, rfl, fun _ => rfl⟩
  show (match apr_table_get r.headers_in SVN_DAV_OPTIONS_HEADER with
      | some svn_client_options =>
          (ap_strstr_c svn_client_options SVN_DAV_OPTION_FORCE).isSome
      | none => false) = true ↔ _
  cases apr_table_get r.headers_in SVN_DAV_OPTIONS_HEADER with
  | none => simp
  | some options =>
    simp only [Option.some.injEq, exists_eq_left']
    exact strstr_offset_isSome_iff options.data "force".data

/-- Witness for C22: a request with the header `X-SVN-Options: force` gives force
true, also when mod_dav passes force 0; a request without custom headers and
a request whose options do not contain the word give force false. -/
theorem open_lockdb_force_flag_witness :
    (dav_svn_open_lockdb { headers_in := [("X-SVN-Options", "force")] } 0 0 sample_world).1
        = .ok { ro := 0, info := { force := true, working_revnum := SVN_INVALID_REVNUM } }
    ∧ (dav_svn_open_lockdb { headers_in := [] } 1 1 sample_world).1
        = .ok { ro := 1, info := { force := false, working_revnum := SVN_INVALID_REVNUM } }
    ∧ (dav_svn_open_lockdb { headers_in := [("X-SVN-Options", "keep-locks")] } 0 1
        sample_world).1
        = .ok { ro := 0, info := { force := false, working_revnum := SVN_INVALID_REVNUM } }
    ∧ ∃ db, (dav_svn_open_lockdb { headers_in := [("X-SVN-Options", "force")] } 0 0
          sample_world).1 = .ok db
        ∧ (db.info.force = true
            ↔ ∃ options, apr_table_get [("X-SVN-Options", "force")] SVN_DAV_OPTIONS_HEADER
                  = some options
                ∧ "force".data <:+: options.data) :=
  have h := open_lockdb_force_flag { headers_in := [("X-SVN-Options", "force")] } 0 0
    sample_world
  ⟨rfl, rfl, rfl, h.elim fun db hdb => ⟨db, hdb.1, hdb.2.1⟩⟩

theorem digitChar_isDigit (m : Nat) (h : m < 10) :
    (Nat.digitChar m).isDigit = true ∧ ((Nat.digitChar m).toNat : Int) - 48 = m
      ∧ isspace (Nat.digitChar m) = false
      ∧ Nat.digitChar m ≠ Char.ofNat 45 ∧ Nat.digitChar m ≠ Char.ofNat 43 := by
  interval_cases m <;> decide

theorem toDigitsCore_append (fuel : Nat) :
    ∀ (n : Nat) (ds : List Char), n < fuel →
      Nat.toDigitsCore 10 fuel n ds = Nat.toDigits 10 n ++ ds := by
  induction fuel using Nat.strong_induction_on with
  | _ fuel ih =>
    intro n ds hn
    cases fuel with
    | zero => omega
    | succ f =>
      unfold Nat.toDigits
      by_cases hq : n / 10 = 0
      · simp [Nat.toDigitsCore, hq]
      · have hlt : n / 10 < n := by omega
        have h1 : Nat.toDigitsCore 10 (f + 1) n ds
            = Nat.toDigitsCore 10 f (n / 10) (Nat.digitChar (n % 10) :: ds) := by
          simp [Nat.toDigitsCore, hq]
        have h2 : Nat.toDigitsCore 10 (n + 1) n []
            = Nat.toDigitsCore 10 n (n / 10) [Nat.digitChar (n % 10)] := by
          simp [Nat.toDigitsCore, hq]
        rw [h1, h2, ih f (by omega) (n / 10) _ (by omega), ih n (by omega) (n / 10) _ hlt]
        simp

theorem toDigits_step (n : Nat) (h : n / 10 ≠ 0) :
    Nat.toDigits 10 n = Nat.toDigits 10 (n / 10) ++ [Nat.digitChar (n % 10)] := by
  have h2 : Nat.toDigits 10 n = Nat.toDigitsCore 10 n (n / 10) [Nat.digitChar (n % 10)] := by
    unfold Nat.toDigits
    simp [Nat.toDigitsCore, h]
  rw [h2, toDigitsCore_append n (n / 10) _ (by omega)]

theorem toDigits_small (n : Nat) (h : n / 10 = 0) :
    Nat.toDigits 10 n = [Nat.digitChar (n % 10)] := by
  unfold Nat.toDigits
  simp [Nat.toDigitsCore, h]

theorem atol_digits_append_digit (l : List Char) (c : Char) (hl : ∀ x ∈ l, x.isDigit = true)
    (hc : c.isDigit = true) (acc : Int) :
    atol_digits acc (l ++ [c]) = atol_digits acc l * 10 + ((c.toNat : Int) - 48) := by
  induction l generalizing acc with
  | nil => simp [atol_digits, hc]
  | cons x xs ih =>
    have hx : x.isDigit = true := hl x (List.mem_cons_self x xs)
    simp only [List.cons_append, atol_digits, hx, if_true]
    exact ih (fun y hy => hl y (List.mem_cons_of_mem x hy)) _

theorem atol_digits_toDigits (n : Nat) :
    (∀ x ∈ Nat.toDigits 10 n, x.isDigit = true)
    ∧ atol_digits 0 (Nat.toDigits 10 n) = n := by
  induction n using Nat.strong_induction_on with
  | _ n ih =>
    have hd := digitChar_isDigit (n % 10) (Nat.mod_lt n (by decide))
    by_cases hq : n / 10 = 0
    · rw [toDigits_small n hq]
      constructor
      · intro x hx
        rw [List.mem_singleton] at hx
        rw [hx]
        exact hd.1
      · simp only [atol_digits, hd.1, if_true]
        rw [hd.2.1]
        omega
    · obtain ⟨hall, hval⟩ := ih (n / 10) (by omega)
      rw [toDigits_step n hq]
      constructor
      · intro x hx
        rcases List.mem_append.mp hx with hx | hx
        · exact hall x hx
        · rw [List.mem_singleton] at hx
          rw [hx]
          exact hd.1
      · rw [atol_digits_append_digit _ _ hall hd.1, hval, hd.2.1]
        omega

theorem toDigits_head (n : Nat) :
    ∃ c rest, Nat.toDigits 10 n = c :: rest ∧ ∃ m, m < 10 ∧ c = Nat.digitChar m := by
  induction n using Nat.strong_induction_on with
  | _ n ih =>
    by_cases hq : n / 10 = 0
    · exact ⟨_, [], toDigits_small n hq, n % 10, Nat.mod_lt n (by decide), rfl⟩
    · obtain ⟨c, rest, hcr, m, hm, hc⟩ := ih (n / 10) (by omega)
      refine ⟨c, rest ++ [Nat.digitChar (n % 10)], ?_, m, hm, hc⟩
      rw [toDigits_step n hq, hcr]
      rfl

theorem atol_repr (n : Nat) (h : n < 2 ^ 63) : atol (Nat.repr n) = n := by
  obtain ⟨c, rest, hcr, m, hm, hc⟩ := toDigits_head n
  have hd := digitChar_isDigit m hm
  have hdata : (Nat.repr n).data = c :: rest := hcr
  have hval : atol_digits 0 (c :: rest) = n := by
    rw [← hcr]
    exact (atol_digits_toDigits n).2
  unfold atol
  rw [hdata, List.dropWhile_cons_of_neg (by rw [hc, hd.2.2.1]; decide)]
  simp only []
  rw [if_neg (by rw [hc]; exact hd.2.2.2.1), if_neg (by rw [hc]; exact hd.2.2.2.2), hval]
  unfold clamp_long
  rw [if_neg (by omega), if_neg (by omega)]

/-- C23: the working revision of the lockdb that `open_lockdb` produces is the
invalid revision when the request has no header named by
`SVN_DAV_VERSION_NAME_HEADER`, and is `n` when the value of that header is the
decimal numeral of a revision number `n` (a non-negative number below 2^63,
the range of `svn_revnum_t`). -/
theorem open_lockdb_working_revnum {σ : Type} (r : request_rec) (ro force : Int)
    (w : world σ) :
    ∃ db, (dav_svn_open_lockdb r ro force w).1 = .ok db
      ∧ (apr_table_get r.headers_in SVN_DAV_VERSION_NAME_HEADER = none →
          db.info.working_revnum = SVN_INVALID_REVNUM)
      ∧ (∀ n : Nat, n < 2 ^ 63 →
          apr_table_get r.headers_in SVN_DAV_VERSION_NAME_HEADER = some (Nat.repr n) →
          db.info.working_revnum = n) := by
  refine ⟨_, rfl, ?_, ?_⟩
  · intro habsent
    show (match apr_table_get r.headers_in SVN_DAV_VERSION_NAME_HEADER with
        | some version_name => SVN_STR_TO_REV version_name
        | none => SVN_INVALID_REVNUM) = SVN_INVALID_REVNUM
    rw [habsent]
  · intro n hn hpresent
    show (match apr_table_get r.headers_in SVN_DAV_VERSION_NAME_HEADER with
        | some version_name => SVN_STR_TO_REV version_name
        | none => SVN_INVALID_REVNUM) = (n : Int)
    rw [hpresent]
    exact atol_repr n hn

/-- Witness for C23: the header `X-SVN-Version-Name: 42` gives the working
revision 42, and a request without custom headers gives force false and the
invalid revision. -/
theorem open_lockdb_working_revnum_witness :
    Nat.repr 42 = "42"
    ∧ (dav_svn_open_lockdb { headers_in := [("X-SVN-Version-Name", "42")] } 0 0
        sample_world).1
        = .ok { ro := 0, info := { force := false, working_revnum := 42 } }
    ∧ (dav_svn_open_lockdb { headers_in := [] } 0 0 sample_world).1
        = .ok { ro := 0, info := { force := false, working_revnum := SVN_INVALID_REVNUM } }
    ∧ ∃ db, (dav_svn_open_lockdb { headers_in := [("X-SVN-Version-Name", "42")] } 0 0
          sample_world).1 = .ok db
        ∧ db.info.working_revnum = 42 :=
  have h := open_lockdb_working_revnum { headers_in := [("X-SVN-Version-Name", "42")] } 0 0
    sample_world
  ⟨by decide, rfl, rfl, h.elim fun db hdb => ⟨db, hdb.1, hdb.2.2 42 (by decide) rfl⟩⟩

/-! ## Refusals of the authorization gate -/

theorem check_readability_error_status {σ : Type} (repos : dav_svn_repos σ) (w : world σ)
    (path : Option String) (e : dav_error)
    (h : check_readability repos w path = .error e) : e.status = 500 := by
  unfold check_readability at h
  repeat' split at h
  all_goals
    cases h <;> rfl

theorem find_lock_of_gate_refusal {σ : Type} (repos : dav_svn_repos σ) (lockdb : dav_lockdb)
    (resource : dav_resource) (locktoken : dav_locktoken) (partial_ok : Int) (w : world σ)
    (hgate : check_readability repos w resource.info.repos_path ≠ .ok true) :
    dav_svn_find_lock repos lockdb resource locktoken partial_ok w
      = (.error (gate_refusal (check_readability repos w resource.info.repos_path)), w) := by
  cases hread : check_readability repos w resource.info.repos_path with
  | error derr => simp only [dav_svn_find_lock, hread, gate_refusal]
  | ok readable =>
    cases readable with
    | true => exact absurd hread hgate
    | false =>
      simp only [dav_svn_find_lock, hread, gate_refusal]
      rfl

theorem append_locks_of_gate_refusal {σ : Type} (repos : dav_svn_repos σ)
    (lockdb : dav_lockdb) (resource : dav_resource) (make_indirect : Int) (lock : dav_lock)
    (w : world σ)
    (hgate : check_readability repos w resource.info.repos_path ≠ .ok true) :
    dav_svn_append_locks repos lockdb resource make_indirect lock w
      = (.error (gate_refusal (check_readability repos w resource.info.repos_path)), w) := by
  cases hread : check_readability repos w resource.info.repos_path with
  | error derr => simp only [dav_svn_append_locks, hread, gate_refusal]
  | ok readable =>
    cases readable with
    | true => exact absurd hread hgate
    | false =>
      simp only [dav_svn_append_locks, hread, gate_refusal]
      rfl

theorem refresh_locks_of_gate_refusal {σ : Type} (repos : dav_svn_repos σ)
    (lockdb : dav_lockdb) (resource : dav_resource) (ltl : dav_locktoken_list)
    (new_time : Int) (w : world σ)
    (hgate : check_readability repos w resource.info.repos_path ≠ .ok true) :
    dav_svn_refresh_locks repos lockdb resource ltl new_time w
      = (.error (gate_refusal (check_readability repos w resource.info.repos_path)), w) := by
  cases hread : check_readability repos w resource.info.repos_path with
  | error derr => simp only [dav_svn_refresh_locks, hread, gate_refusal]
  | ok readable =>
    cases readable with
    | true => exact absurd hread hgate
    | false =>
      simp only [dav_svn_refresh_locks, hread, gate_refusal]
      rfl

theorem remove_lock_of_gate_refusal {σ : Type} (repos : dav_svn_repos σ) (lockdb : dav_lockdb)
    (resource : dav_resource) (locktoken : Option dav_locktoken) (w : world σ) (p : String)
    (hpath : resource.info.repos_path = some p)
    (hgate : check_readability repos w (some p) ≠ .ok true) :
    dav_svn_remove_lock repos lockdb resource locktoken w
      = (.error (gate_refusal (check_readability repos w (some p))), w) := by
  cases hread : check_readability repos w (some p) with
  | error derr => simp only [dav_svn_remove_lock, hpath, hread, gate_refusal]
  | ok readable =>
    cases readable with
    | true => exact absurd hread hgate
    | false =>
      simp only [dav_svn_remove_lock, hpath, hread, gate_refusal]
      rfl

theorem get_locks_of_gate_refusal {σ : Type} (repos : dav_svn_repos σ) (lockdb : dav_lockdb)
    (resource : dav_resource) (calltype : Int) (w : world σ) (p : String)
    (hpath : resource.info.repos_path = some p) (hforce : lockdb.info.force = false)
    (hgate : check_readability repos w (some p) ≠ .ok true) :
    dav_svn_get_locks repos lockdb resource calltype w
      = (.error (gate_refusal (check_readability repos w (some p))), w) := by
  cases hread : check_readability repos w (some p) with
  | error derr => simp [dav_svn_get_locks, hpath, hforce, hread, gate_refusal]
  | ok readable =>
    cases readable with
    | true => exact absurd hread hgate
    | false => simp [dav_svn_get_locks, hpath, hforce, hread, gate_refusal]

theorem has_locks_of_gate_refusal {σ : Type} (repos : dav_svn_repos σ) (lockdb : dav_lockdb)
    (resource : dav_resource) (w : world σ) (p : String)
    (hpath : resource.info.repos_path = some p) (hforce : lockdb.info.force = false)
    (hgate : check_readability repos w (some p) ≠ .ok true) :
    dav_svn_has_locks repos lockdb resource w
      = (.error (gate_refusal (check_readability repos w (some p))), w) := by
  cases hread : check_readability repos w (some p) with
  | error derr => simp [dav_svn_has_locks, hpath, hforce, hread, gate_refusal]
  | ok readable =>
    cases readable with
    | true => exact absurd hread hgate
    | false => simp [dav_svn_has_locks, hpath, hforce, hread, gate_refusal]

theorem remove_lock_without_path {σ : Type} (repos : dav_svn_repos σ) (lockdb : dav_lockdb)
    (resource : dav_resource) (locktoken : Option dav_locktoken) (w : world σ)
    (hpath : resource.info.repos_path = none) :
    dav_svn_remove_lock repos lockdb resource locktoken w = (.ok (), w) := by
  simp only [dav_svn_remove_lock, hpath]

/-- C26: no mutation behind a refusing gate.  When the authorization gate does not
report the path of the resource readable (it reports it unreadable, or it
fails), `append_locks` and `refresh_locks` return an error and the world as it
was, whatever the lockdb; `remove_lock` does the same on a resource that has a
repository path, and on every resource its world is the one it was given.  So
neither `attach_lock` nor `unlock` is called and the repository state is
unchanged. -/
theorem no_mutation_behind_gate {σ : Type} (repos : dav_svn_repos σ) (lockdb : dav_lockdb)
    (resource : dav_resource) (w : world σ) (make_indirect new_time : Int) (lock : dav_lock)
    (locktoken : Option dav_locktoken) (ltl : dav_locktoken_list)
    (hgate : check_readability repos w resource.info.repos_path ≠ .ok true) :
    (∃ e, dav_svn_append_locks repos lockdb resource make_indirect lock w = (.error e, w))
    ∧ (∃ e, dav_svn_refresh_locks repos lockdb resource ltl new_time w = (.error e, w))
    ∧ (resource.info.repos_path ≠ none →
        ∃ e, dav_svn_remove_lock repos lockdb resource locktoken w = (.error e, w))
    ∧ (dav_svn_append_locks repos lockdb resource make_indirect lock w).2.calls = w.calls
    ∧ (dav_svn_refresh_locks repos lockdb resource ltl new_time w).2.calls = w.calls
    ∧ (dav_svn_remove_lock repos lockdb resource locktoken w).2.calls = w.calls
    ∧ (dav_svn_append_locks repos lockdb resource make_indirect lock w).2.fs = w.fs
    ∧ (dav_svn_refresh_locks repos lockdb resource ltl new_time w).2.fs = w.fs
    ∧ (dav_svn_remove_lock repos lockdb resource locktoken w).2.fs = w.fs := by
  have happend := append_locks_of_gate_refusal repos lockdb resource make_indirect lock w hgate
  have hrefresh := refresh_locks_of_gate_refusal repos lockdb resource ltl new_time w hgate
  have hremove : (resource.info.repos_path ≠ none →
        ∃ e, dav_svn_remove_lock repos lockdb resource locktoken w = (.error e, w))
      ∧ (dav_svn_remove_lock repos lockdb resource locktoken w).2 = w := by
    cases hpath : resource.info.repos_path with
    | none =>
      rw [remove_lock_without_path repos lockdb resource locktoken w hpath]
      exact ⟨fun h => absurd rfl h, rfl⟩
    | some p =>
      rw [hpath] at hgate
      rw [remove_lock_of_gate_refusal repos lockdb resource locktoken w p hpath hgate]
      exact ⟨fun _ => ⟨_, rfl⟩, rfl⟩
  refine ⟨⟨_, happend⟩, ⟨_, hrefresh⟩, hremove.1, ?_, ?_, ?_, ?_, ?_, ?_⟩
  · rw [happend]
  · rw [hrefresh]
  · rw [hremove.2]
  · rw [happend]
  · rw [hrefresh]
  · rw [hremove.2]

/-- Witness for C26: on the unreadable, locked path /secret with the force flag
set, and on /a/b in the repository whose gate fails, the three functions
return an error and make no repository call. -/
theorem no_mutation_behind_gate_witness :
    check_readability sample_repos sample_world resource_secret.info.repos_path = .ok false
    ∧ forced_lockdb.info.force = true
    ∧ dav_svn_append_locks sample_repos forced_lockdb resource_secret 0 dav_lock_request
        sample_world = (.error path_not_accessible, sample_world)
    ∧ dav_svn_remove_lock sample_repos forced_lockdb resource_secret
        (some { uuid_str := "tok-secret" }) sample_world
        = (.error path_not_accessible, sample_world)
    ∧ dav_svn_refresh_locks sample_repos forced_lockdb resource_secret
        { locktoken := { uuid_str := "tok-secret" }, next := [] } 7200 sample_world
        = (.error path_not_accessible, sample_world)
    ∧ (dav_svn_remove_lock sample_repos forced_lockdb resource_secret
        (some { uuid_str := "tok-secret" }) sample_world).2.calls = []
    ∧ fails_with (dav_svn_append_locks offline_repos plain_lockdb resource_ab 0
        dav_lock_request sample_world).1 500 (dav_error_id.svn (svn_errno.other 160029))
    ∧ (dav_svn_append_locks offline_repos plain_lockdb resource_ab 0 dav_lock_request
        sample_world).2.calls = [] :=
  have h := no_mutation_behind_gate sample_repos forced_lockdb resource_secret sample_world 0
    7200 dav_lock_request (some { uuid_str := "tok-secret" })
    { locktoken := { uuid_str := "tok-secret" }, next := [] }
    (by
      intro hok
      have hfalse : (Except.ok false : Except dav_error Bool) = .ok true := hok
      cases hfalse)
  have h2 := no_mutation_behind_gate offline_repos plain_lockdb resource_ab sample_world 0
    7200 dav_lock_request none { locktoken := { uuid_str := "tok-ab" }, next := [] }
    (by
      intro hok
      have hfailed : (Except.error (dav_svn_convert_err
          { apr_err := svn_errno.other 160029, message := "no repository" } 500
          "Failed to get youngest filesystem revision.") : Except dav_error Bool)
          = .ok true := hok
      cases hfailed)
  ⟨rfl, rfl, rfl, rfl, rfl, h.2.2.2.2.2.1, ⟨_, rfl, rfl, rfl⟩, h2.2.2.2.1⟩

/-! ## Creating a lock record: `create_lock` -/

/-- C25: when the repository generates the token `u`, `create_lock` succeeds with
the DAV record of rectype DIRECT, depth 0, scope and type UNKNOWN,
`is_locknull` equal to the exists flag of the resource, token UUID `u`, no
owner, no authenticated user, timeout 0 and no successor; when the generation
fails it fails with the error `dav_svn_convert_err` builds for status 500.
The world is returned as it was, and the result depends on no repository call
but the token generation: the authorization gate is not consulted. -/
theorem create_lock_record {σ : Type} (repos : dav_svn_repos σ) (lockdb : dav_lockdb)
    (resource : dav_resource) (w : world σ) :
    (∀ u, repos.svn_fs_generate_token w.fs = .ok u →
        dav_svn_create_lock repos lockdb resource w
          = (.ok { rectype := DAV_LOCKREC_DIRECT
                   is_locknull := resource.exists
                   scope := DAV_LOCKSCOPE_UNKNOWN
                   type := DAV_LOCKTYPE_UNKNOWN
                   depth := 0
                   timeout := 0
                   locktoken := { uuid_str := u }
                   owner := none
                   auth_user := none
                   next := none }, w))
    ∧ (∀ serr, repos.svn_fs_generate_token w.fs = .error serr →
        dav_svn_create_lock repos lockdb resource w
            = (.error (dav_svn_convert_err serr 500 "Failed to generate a lock token."), w)
          ∧ (dav_svn_convert_err serr 500 "Failed to generate a lock token.").status = 500)
    ∧ (dav_svn_create_lock repos lockdb resource w).2 = w
    ∧ (∀ repos2 : dav_svn_repos σ,
        repos2.svn_fs_generate_token w.fs = repos.svn_fs_generate_token w.fs →
        dav_svn_create_lock repos2 lockdb resource w
          = dav_svn_create_lock repos lockdb resource w) := by
  refine ⟨?_, ?_, create_lock_keeps_headers repos lockdb resource w, ?_⟩
  · intro u hu
    simp only [dav_svn_create_lock, hu]
  · intro serr hserr
    simp only [dav_svn_create_lock, hserr]
    exact ⟨rfl, rfl⟩
  · intro repos2 hsame
    simp only [dav_svn_create_lock, hsame]

/-- Witness for C25: on the unreadable path /secret of the sample repository
`create_lock` succeeds with the generated token, and in the repository that
cannot generate a token it fails with status 500. -/
theorem create_lock_record_witness :
    check_readability sample_repos sample_world resource_secret.info.repos_path = .ok false
    ∧ dav_svn_create_lock sample_repos plain_lockdb resource_secret sample_world
        = (.ok { rectype := DAV_LOCKREC_DIRECT
                 is_locknull := true
                 scope := DAV_LOCKSCOPE_UNKNOWN
                 type := DAV_LOCKTYPE_UNKNOWN
                 depth := 0
                 timeout := 0
                 locktoken := { uuid_str := "11111111-2222-3333-4444-555555555555" }
                 owner := none
                 auth_user := none
                 next := none }, sample_world)
    ∧ fails_with (dav_svn_create_lock offline_repos plain_lockdb resource_ab sample_world).1
        500 (dav_error_id.svn (svn_errno.other 160029)) :=
  have h := create_lock_record sample_repos plain_lockdb resource_secret sample_world
  have h2 := create_lock_record offline_repos plain_lockdb resource_ab sample_world
  ⟨rfl, h.1 _ rfl, ⟨_, congrArg Prod.fst (h2.2.1 _ rfl).1, rfl, rfl⟩⟩

theorem dav_lock_to_svn_lock_ok_accepted (now : Int) (d : dav_lock) (path : Option String)
    (slock : svn_lock_t) (h : dav_lock_to_svn_lock now d path = .ok slock) :
    d.type = DAV_LOCKTYPE_WRITE ∧ d.scope = DAV_LOCKSCOPE_EXCLUSIVE := by
  unfold dav_lock_to_svn_lock at h
  split at h
  · cases h
  · split at h
    · cases h
    · rename_i htype hscope
      exact ⟨not_not.mp htype, not_not.mp hscope⟩

/-- C28: on a readable resource the record that a successful `create_lock`
returns, handed to `append_locks` as it is, is rejected with 400 / save-lock
("Only 'write' locks are supported.") and the world stays as it was, so
`attach_lock` is not reached; and `append_locks` succeeds on no record,
created or not, unless its type is WRITE and its scope EXCLUSIVE. -/
theorem created_record_is_rejected {σ : Type} (repos : dav_svn_repos σ) (lockdb : dav_lockdb)
    (resource : dav_resource) (make_indirect : Int) (w : world σ) (d : dav_lock)
    (hread : check_readability repos w resource.info.repos_path = .ok true)
    (hcreate : (dav_svn_create_lock repos lockdb resource w).1 = .ok d) :
    dav_svn_append_locks repos lockdb resource make_indirect d
        (dav_svn_create_lock repos lockdb resource w).2
        = (.error (dav_new_error 400 dav_error_id.DAV_ERR_LOCK_SAVE_LOCK
            "Only \x27write\x27 locks are supported."), w)
    ∧ fails_with (dav_svn_append_locks repos lockdb resource make_indirect d
        (dav_svn_create_lock repos lockdb resource w).2).1
        400 dav_error_id.DAV_ERR_LOCK_SAVE_LOCK
    ∧ (dav_svn_append_locks repos lockdb resource make_indirect d
        (dav_svn_create_lock repos lockdb resource w).2).2.calls = w.calls
    ∧ (∀ lock : dav_lock,
        (dav_svn_append_locks repos lockdb resource make_indirect lock w).1 = .ok () →
        lock.type = DAV_LOCKTYPE_WRITE ∧ lock.scope = DAV_LOCKSCOPE_EXCLUSIVE) := by
  have hrecord : d.type = DAV_LOCKTYPE_UNKNOWN ∧ d.next = none := by
    unfold dav_svn_create_lock at hcreate
    split at hcreate
    · cases hcreate
    · cases hcreate
      exact ⟨rfl, rfl⟩
  have hreject : dav_svn_append_locks repos lockdb resource make_indirect d
      (dav_svn_create_lock repos lockdb resource w).2
      = (.error (dav_new_error 400 dav_error_id.DAV_ERR_LOCK_SAVE_LOCK
          "Only \x27write\x27 locks are supported."), w) := by
    rw [create_lock_keeps_headers]
    simp only [dav_svn_append_locks, hread, hrecord.2, dav_lock_to_svn_lock, hrecord.1]
    rfl
  rw [hreject]
  refine ⟨rfl, ⟨_, rfl, rfl, rfl⟩, rfl, ?_⟩
  intro lock hok
  obtain ⟨slock, hslock, -⟩ :=
    (append_locks_headers repos lockdb resource make_indirect lock w).2 hok
  exact dav_lock_to_svn_lock_ok_accepted _ _ _ _ hslock

/-- Witness for C28, on the readable path /a/b of the sample repository: the
created record is rejected as it is, and accepted once type, scope and the
authenticated user are filled in. -/
theorem created_record_is_rejected_witness :
    check_readability sample_repos sample_world resource_ab.info.repos_path = .ok true
    ∧ (∃ d, (dav_svn_create_lock sample_repos plain_lockdb resource_ab sample_world).1 = .ok d
        ∧ d.type = DAV_LOCKTYPE_UNKNOWN
        ∧ d.scope = DAV_LOCKSCOPE_UNKNOWN
        ∧ fails_with (dav_svn_append_locks sample_repos plain_lockdb resource_ab 0 d
            (dav_svn_create_lock sample_repos plain_lockdb resource_ab sample_world).2).1
            400 dav_error_id.DAV_ERR_LOCK_SAVE_LOCK
        ∧ (dav_svn_append_locks sample_repos plain_lockdb resource_ab 0
            { d with type := DAV_LOCKTYPE_WRITE, scope := DAV_LOCKSCOPE_EXCLUSIVE,
                     auth_user := some "alice" } sample_world).1 = .ok ()) :=
  ⟨rfl, _, rfl, rfl, rfl,
    (created_record_is_rejected sample_repos plain_lockdb resource_ab 0 sample_world _ rfl
      rfl).2.1, rfl⟩

/-! ## Locks found through another resource -/

/-- C27 fails on the code: `find_lock` never compares the path of the lock it
found with the path of the resource.  In the sample repository /a/b is
readable and /secret is not, and `find_lock` on /a/b with the token of the
lock on /secret returns that lock, with its owner, comment and timeout.  For
every repository and readable resource a lock found by token is returned
whatever its path. -/
theorem find_lock_ignores_lock_path :
    check_readability sample_repos sample_world resource_ab.info.repos_path = .ok true
    ∧ check_readability sample_repos sample_world (some "/secret") = .ok false
    ∧ resource_ab.info.repos_path = some "/a/b"
    ∧ lock_secret.path = some "/secret"
    ∧ (dav_svn_find_lock sample_repos plain_lockdb resource_ab { uuid_str := "tok-secret" } 0
        sample_world).1 = .ok (some (svn_lock_to_dav_lock lock_secret true))
    ∧ (svn_lock_to_dav_lock lock_secret true).auth_user = some "bob"
    ∧ (svn_lock_to_dav_lock lock_secret true).locktoken = { uuid_str := "tok-secret" }
    ∧ ∀ {σ : Type} (repos : dav_svn_repos σ) (lockdb : dav_lockdb) (resource : dav_resource)
        (locktoken : dav_locktoken) (partial_ok : Int) (w : world σ) (L : svn_lock_t),
        check_readability repos w resource.info.repos_path = .ok true →
        repos.svn_fs_get_lock_from_token w.fs locktoken.uuid_str = token_lookup.found L →
        (dav_svn_find_lock repos lockdb resource locktoken partial_ok w).1
          = .ok (some (svn_lock_to_dav_lock L resource.exists)) := by
  refine ⟨rfl, rfl, rfl, rfl, rfl, rfl, rfl, ?_⟩
  intro σ repos lockdb resource locktoken partial_ok w L hread hfound
  simp only [dav_svn_find_lock, hread, hfound]
  rfl

/-! ## The HTTP statuses of the errors -/

theorem dav_lock_to_svn_lock_error_status (now : Int) (d : dav_lock) (path : Option String)
    (e : dav_error) (h : dav_lock_to_svn_lock now d path = .error e) : e.status = 400 := by
  unfold dav_lock_to_svn_lock at h
  repeat' split at h
  all_goals
    cases h <;> rfl

theorem parse_locktoken_error_status (s : String) (e : dav_error)
    (h : dav_svn_parse_locktoken s = .error e) : e.status = 400 := by
  unfold dav_svn_parse_locktoken at h
  split at h
  · cases h
    rfl
  · cases h

theorem create_lock_error_status {σ : Type} (repos : dav_svn_repos σ) (lockdb : dav_lockdb)
    (resource : dav_resource) (w : world σ) (e : dav_error)
    (h : (dav_svn_create_lock repos lockdb resource w).1 = .error e) : e.status = 500 := by
  unfold dav_svn_create_lock at h
  split at h
  · cases h
    rfl
  · cases h

theorem get_locks_error_status {σ : Type} (repos : dav_svn_repos σ) (lockdb : dav_lockdb)
    (resource : dav_resource) (calltype : Int) (w : world σ) (e : dav_error)
    (h : (dav_svn_get_locks repos lockdb resource calltype w).1 = .error e) :
    e.status = 403 ∨ e.status = 500 := by
  unfold dav_svn_get_locks at h
  repeat' split at h
  all_goals
    cases h <;> first
      | exact Or.inl rfl
      | exact Or.inr rfl
      | exact Or.inr (check_readability_error_status _ _ _ _ (by assumption))

theorem has_locks_error_status {σ : Type} (repos : dav_svn_repos σ) (lockdb : dav_lockdb)
    (resource : dav_resource) (w : world σ) (e : dav_error)
    (h : (dav_svn_has_locks repos lockdb resource w).1 = .error e) :
    e.status = 403 ∨ e.status = 500 := by
  unfold dav_svn_has_locks at h
  repeat' split at h
  all_goals
    cases h <;> first
      | exact Or.inl rfl
      | exact Or.inr rfl
      | exact Or.inr (check_readability_error_status _ _ _ _ (by assumption))

theorem find_lock_error_status {σ : Type} (repos : dav_svn_repos σ) (lockdb : dav_lockdb)
    (resource : dav_resource) (locktoken : dav_locktoken) (partial_ok : Int) (w : world σ)
    (e : dav_error)
    (h : (dav_svn_find_lock repos lockdb resource locktoken partial_ok w).1 = .error e) :
    e.status = 403 ∨ e.status = 500 := by
  unfold dav_svn_find_lock at h
  repeat' split at h
  all_goals
    cases h <;> first
      | exact Or.inl rfl
      | exact Or.inr rfl
      | exact Or.inr (check_readability_error_status _ _ _ _ (by assumption))

theorem append_locks_error_status {σ : Type} (repos : dav_svn_repos σ) (lockdb : dav_lockdb)
    (resource : dav_resource) (make_indirect : Int) (lock : dav_lock) (w : world σ)
    (e : dav_error)
    (h : (dav_svn_append_locks repos lockdb resource make_indirect lock w).1 = .error e) :
    e.status = 400 ∨ e.status = 401 ∨ e.status = 403 ∨ e.status = 500 := by
  simp only [dav_svn_append_locks] at h
  repeat' split at h
  all_goals
    cases h <;> first
      | exact Or.inl rfl
      | exact Or.inr (Or.inl rfl)
      | exact Or.inr (Or.inr (Or.inl rfl))
      | exact Or.inr (Or.inr (Or.inr rfl))
      | exact Or.inr (Or.inr (Or.inr
          (check_readability_error_status _ _ _ _ (by assumption))))
      | exact Or.inl (dav_lock_to_svn_lock_error_status _ _ _ _ (by assumption))

theorem remove_lock_error_status {σ : Type} (repos : dav_svn_repos σ) (lockdb : dav_lockdb)
    (resource : dav_resource) (locktoken : Option dav_locktoken) (w : world σ)
    (e : dav_error)
    (h : (dav_svn_remove_lock repos lockdb resource locktoken w).1 = .error e) :
    e.status = 401 ∨ e.status = 403 ∨ e.status = 500 := by
  simp only [dav_svn_remove_lock] at h
  repeat' split at h
  all_goals
    cases h <;> first
      | exact Or.inl rfl
      | exact Or.inr (Or.inl rfl)
      | exact Or.inr (Or.inr rfl)
      | exact Or.inr (Or.inr (check_readability_error_status _ _ _ _ (by assumption)))

theorem refresh_locks_error_status {σ : Type} (repos : dav_svn_repos σ) (lockdb : dav_lockdb)
    (resource : dav_resource) (ltl : dav_locktoken_list) (new_time : Int) (w : world σ)
    (e : dav_error)
    (h : (dav_svn_refresh_locks repos lockdb resource ltl new_time w).1 = .error e) :
    e.status = 401 ∨ e.status = 403 ∨ e.status = 500 := by
  simp only [dav_svn_refresh_locks] at h
  repeat' split at h
  all_goals
    cases h <;> first
      | exact Or.inl rfl
      | exact Or.inr (Or.inl rfl)
      | exact Or.inr (Or.inr rfl)
      | exact Or.inr (Or.inr (check_readability_error_status _ _ _ _ (by assumption)))

theorem fails_with_convert_err {α : Type} (serr : svn_error_t) (message : String) :
    fails_with (Except.error (dav_svn_convert_err serr HTTP_INTERNAL_SERVER_ERROR message) :
      Except dav_error α) 500 (dav_error_id.svn serr.apr_err) :=
  ⟨_, rfl, rfl, rfl⟩

theorem check_readability_of_failure {σ : Type} (repos : dav_svn_repos σ) (w : world σ)
    (path : Option String) (serr : svn_error_t) :
    (repos.svn_fs_youngest_rev w.fs = .error serr →
      fails_with (check_readability repos w path) 500 (dav_error_id.svn serr.apr_err))
    ∧ (∀ headrev, repos.svn_fs_youngest_rev w.fs = .ok headrev →
        repos.svn_fs_revision_root w.fs headrev = .error serr →
        fails_with (check_readability repos w path) 500 (dav_error_id.svn serr.apr_err))
    ∧ (∀ headrev headroot, repos.svn_fs_youngest_rev w.fs = .ok headrev →
        repos.svn_fs_revision_root w.fs headrev = .ok headroot →
        repos.dav_svn_authz_read w.fs headroot path = .error serr →
        fails_with (check_readability repos w path) 500 (dav_error_id.svn serr.apr_err)) := by
  refine ⟨?_, ?_, ?_⟩
  · intro h
    simp only [check_readability, h]
    exact fails_with_convert_err serr _
  · intro headrev h1 h2
    simp only [check_readability, h1, h2]
    exact fails_with_convert_err serr _
  · intro headrev headroot h1 h2 h3
    simp only [check_readability, h1, h2, h3]
    exact fails_with_convert_err serr _

theorem path_lookup_failure {σ : Type} (repos : dav_svn_repos σ) (lockdb : dav_lockdb)
    (resource : dav_resource) (calltype : Int) (w : world σ) (p : String) (serr : svn_error_t)
    (hpath : resource.info.repos_path = some p)
    (hread : check_readability repos w (some p) = .ok true)
    (hlookup : repos.svn_fs_get_lock_from_path w.fs p = .error serr) :
    fails_with (dav_svn_remove_lock repos lockdb resource none w).1
        500 (dav_error_id.svn serr.apr_err)
    ∧ (lockdb.info.force = false →
        fails_with (dav_svn_get_locks repos lockdb resource calltype w).1
            500 (dav_error_id.svn serr.apr_err)
          ∧ fails_with (dav_svn_has_locks repos lockdb resource w).1
            500 (dav_error_id.svn serr.apr_err)) := by
  refine ⟨?_, fun hforce => ⟨?_, ?_⟩⟩
  · simp only [dav_svn_remove_lock, hpath, hread, hlookup]
    exact fails_with_convert_err serr _
  · simp only [dav_svn_get_locks, hpath, hforce, hread, hlookup]
    exact fails_with_convert_err serr _
  · simp only [dav_svn_has_locks, hpath, hforce, hread, hlookup]
    exact fails_with_convert_err serr _

theorem token_lookup_failure {σ : Type} (repos : dav_svn_repos σ) (lockdb : dav_lockdb)
    (resource : dav_resource) (locktoken : dav_locktoken) (ltl : dav_locktoken_list)
    (partial_ok new_time : Int) (w : world σ) (serr : svn_error_t)
    (hread : check_readability repos w resource.info.repos_path = .ok true) :
    (∀ slock, repos.svn_fs_get_lock_from_token w.fs locktoken.uuid_str
          = token_lookup.failed serr slock →
        serr.apr_err ≠ svn_errno.SVN_ERR_FS_BAD_LOCK_TOKEN →
        serr.apr_err ≠ svn_errno.SVN_ERR_FS_LOCK_EXPIRED →
        fails_with (dav_svn_find_lock repos lockdb resource locktoken partial_ok w).1
          500 (dav_error_id.svn serr.apr_err))
    ∧ (∀ slock, repos.svn_fs_get_lock_from_token w.fs ltl.locktoken.uuid_str
          = token_lookup.failed serr slock →
        fails_with (dav_svn_refresh_locks repos lockdb resource ltl new_time w).1
          500 (dav_error_id.svn serr.apr_err)) := by
  refine ⟨?_, ?_⟩
  · intro slock hlookup hbad hexpired
    have hcode : ¬ (serr.apr_err = svn_errno.SVN_ERR_FS_BAD_LOCK_TOKEN
        ∨ serr.apr_err = svn_errno.SVN_ERR_FS_LOCK_EXPIRED) := by
      rintro (h | h)
      · exact hbad h
      · exact hexpired h
    simp only [dav_svn_find_lock, hread, hlookup]
    rw [if_neg (by decide), if_neg hcode]
    exact fails_with_convert_err serr _
  · intro slock hlookup
    simp only [dav_svn_refresh_locks, hread, hlookup]
    rw [if_neg (by decide)]
    exact fails_with_convert_err serr _

theorem attach_failure {σ : Type} (repos : dav_svn_repos σ) (lockdb : dav_lockdb)
    (resource : dav_resource) (make_indirect new_time : Int) (lock : dav_lock)
    (ltl : dav_locktoken_list) (w : world σ) (serr : svn_error_t)
    (hread : check_readability repos w resource.info.repos_path = .ok true)
    (hkind : serr.apr_err ≠ svn_errno.SVN_ERR_FS_NO_USER) :
    (∀ slock, lock.next = none →
        dav_lock_to_svn_lock w.now lock resource.info.repos_path = .ok slock →
        (repos.svn_repos_fs_attach_lock w.fs slock lockdb.info.force
          lockdb.info.working_revnum).1 = some serr →
        fails_with (dav_svn_append_locks repos lockdb resource make_indirect lock w).1
          500 (dav_error_id.svn serr.apr_err))
    ∧ (∀ L p, repos.svn_fs_get_lock_from_token w.fs ltl.locktoken.uuid_str
          = token_lookup.found L →
        resource.info.repos_path = some p → L.path = some p →
        (repos.svn_repos_fs_attach_lock w.fs
          { L with expiration_date := wrap64 (wrap64 new_time * APR_USEC_PER_SEC) }
          true SVN_INVALID_REVNUM).1 = some serr →
        fails_with (dav_svn_refresh_locks repos lockdb resource ltl new_time w).1
          500 (dav_error_id.svn serr.apr_err)) := by
  refine ⟨?_, ?_⟩
  · intro slock hnext hslock hattach
    rw [append_locks_of_accepted repos lockdb resource make_indirect lock w slock hread hnext
      hslock, hattach]
    simp only [hkind, if_false]
    exact fails_with_convert_err serr _
  · intro L p hfound hpath hlock hattach
    rw [refresh_locks_of_same_path repos lockdb resource ltl new_time w L p hread hfound hpath
      hlock, hattach]
    simp only [hkind, if_false]
    exact fails_with_convert_err serr _

theorem unlock_failure {σ : Type} (repos : dav_svn_repos σ) (lockdb : dav_lockdb)
    (resource : dav_resource) (locktoken : Option dav_locktoken) (w : world σ)
    (p tok : String) (serr : svn_error_t)
    (hpath : resource.info.repos_path = some p)
    (hread : check_readability repos w (some p) = .ok true)
    (htok : (∃ t, locktoken = some t ∧ t.uuid_str = tok)
      ∨ (locktoken = none
          ∧ ∃ L, repos.svn_fs_get_lock_from_path w.fs p = .ok (some L) ∧ L.token = tok))
    (hkind : serr.apr_err ≠ svn_errno.SVN_ERR_FS_NO_USER)
    (hunlock : (repos.svn_repos_fs_unlock w.fs tok lockdb.info.force).1 = some serr) :
    fails_with (dav_svn_remove_lock repos lockdb resource locktoken w).1
      500 (dav_error_id.svn serr.apr_err) := by
  rw [remove_lock_of_token repos lockdb resource locktoken w p tok hpath hread htok, hunlock]
  simp only [hkind, if_false]
  exact fails_with_convert_err serr _

theorem gate_error_propagates {σ : Type} (repos : dav_svn_repos σ) (lockdb : dav_lockdb)
    (resource : dav_resource) (w : world σ)
    (calltype partial_ok make_indirect new_time : Int) (locktoken : dav_locktoken)
    (remove_token : Option dav_locktoken) (ltl : dav_locktoken_list) (lock : dav_lock)
    (e : dav_error)
    (hgate : check_readability repos w resource.info.repos_path = .error e) :
    e.status = 500
    ∧ (dav_svn_find_lock repos lockdb resource locktoken partial_ok w).1 = .error e
    ∧ (dav_svn_append_locks repos lockdb resource make_indirect lock w).1 = .error e
    ∧ (dav_svn_refresh_locks repos lockdb resource ltl new_time w).1 = .error e
    ∧ (resource.info.repos_path ≠ none →
        (dav_svn_remove_lock repos lockdb resource remove_token w).1 = .error e
        ∧ (lockdb.info.force = false →
            (dav_svn_get_locks repos lockdb resource calltype w).1 = .error e
            ∧ (dav_svn_has_locks repos lockdb resource w).1 = .error e)) := by
  have hne : check_readability repos w resource.info.repos_path ≠ .ok true := by
    rw [hgate]
    intro h
    cases h
  refine ⟨check_readability_error_status repos w _ e hgate, ?_, ?_, ?_, ?_⟩
  · rw [find_lock_of_gate_refusal repos lockdb resource locktoken partial_ok w hne, hgate]
    rfl
  · rw [append_locks_of_gate_refusal repos lockdb resource make_indirect lock w hne, hgate]
    rfl
  · rw [refresh_locks_of_gate_refusal repos lockdb resource ltl new_time w hne, hgate]
    rfl
  · intro hpath
    cases hp : resource.info.repos_path with
    | none => exact absurd hp hpath
    | some p =>
      rw [hp] at hgate hne
      refine ⟨?_, fun hforce => ⟨?_, ?_⟩⟩
      · rw [remove_lock_of_gate_refusal repos lockdb resource remove_token w p hp hne, hgate]
        rfl
      · rw [get_locks_of_gate_refusal repos lockdb resource calltype w p hp hforce hne, hgate]
        rfl
      · rw [has_locks_of_gate_refusal repos lockdb resource w p hp hforce hne, hgate]
        rfl

/-- C24: every error a provider entry point returns has one of the HTTP statuses
400, 401, 403 and 500, for every input and every repository; and a repository
call that fails with an error `serr` of none of the kinds no-user,
bad-lock-token and lock-expired makes the entry point that reached the call
fail with status 500 (the error `dav_svn_convert_err` builds from `serr`):
the three calls of the authorization gate, the token generation, the lookup
of a lock by path and by token, `attach_lock` and `unlock`. -/
theorem provider_error_statuses {σ : Type} (repos : dav_svn_repos σ) (lockdb : dav_lockdb)
    (resource : dav_resource) (w : world σ) (s : String)
    (calltype partial_ok make_indirect new_time : Int) (locktoken : dav_locktoken)
    (remove_token : Option dav_locktoken) (ltl : dav_locktoken_list) (lock : dav_lock)
    (serr : svn_error_t)
    (hkind : serr.apr_err ≠ svn_errno.SVN_ERR_FS_NO_USER
      ∧ serr.apr_err ≠ svn_errno.SVN_ERR_FS_BAD_LOCK_TOKEN
      ∧ serr.apr_err ≠ svn_errno.SVN_ERR_FS_LOCK_EXPIRED) :
    -- the statuses of the errors returned
    ((∀ e, dav_svn_parse_locktoken s = .error e → e.status ∈ [400, 401, 403, 500])
      ∧ (∀ e, (dav_svn_create_lock repos lockdb resource w).1 = .error e →
          e.status ∈ [400, 401, 403, 500])
      ∧ (∀ e, (dav_svn_get_locks repos lockdb resource calltype w).1 = .error e →
          e.status ∈ [400, 401, 403, 500])
      ∧ (∀ e, (dav_svn_find_lock repos lockdb resource locktoken partial_ok w).1 = .error e →
          e.status ∈ [400, 401, 403, 500])
      ∧ (∀ e, (dav_svn_has_locks repos lockdb resource w).1 = .error e →
          e.status ∈ [400, 401, 403, 500])
      ∧ (∀ e, (dav_svn_append_locks repos lockdb resource make_indirect lock w).1 = .error e →
          e.status ∈ [400, 401, 403, 500])
      ∧ (∀ e, (dav_svn_remove_lock repos lockdb resource remove_token w).1 = .error e →
          e.status ∈ [400, 401, 403, 500])
      ∧ (∀ e, (dav_svn_refresh_locks repos lockdb resource ltl new_time w).1 = .error e →
          e.status ∈ [400, 401, 403, 500]))
    -- a failing call of the authorization gate
    ∧ ((repos.svn_fs_youngest_rev w.fs = .error serr →
          fails_with (check_readability repos w resource.info.repos_path)
            500 (dav_error_id.svn serr.apr_err))
      ∧ (∀ headrev, repos.svn_fs_youngest_rev w.fs = .ok headrev →
          repos.svn_fs_revision_root w.fs headrev = .error serr →
          fails_with (check_readability repos w resource.info.repos_path)
            500 (dav_error_id.svn serr.apr_err))
      ∧ (∀ headrev headroot, repos.svn_fs_youngest_rev w.fs = .ok headrev →
          repos.svn_fs_revision_root w.fs headrev = .ok headroot →
          repos.dav_svn_authz_read w.fs headroot resource.info.repos_path = .error serr →
          fails_with (check_readability repos w resource.info.repos_path)
            500 (dav_error_id.svn serr.apr_err))
      ∧ (∀ e, check_readability repos w resource.info.repos_path = .error e →
          e.status = 500
          ∧ (dav_svn_find_lock repos lockdb resource locktoken partial_ok w).1 = .error e
          ∧ (dav_svn_append_locks repos lockdb resource make_indirect lock w).1 = .error e
          ∧ (dav_svn_refresh_locks repos lockdb resource ltl new_time w).1 = .error e
          ∧ (resource.info.repos_path ≠ none →
              (dav_svn_remove_lock repos lockdb resource remove_token w).1 = .error e
              ∧ (lockdb.info.force = false →
                  (dav_svn_get_locks repos lockdb resource calltype w).1 = .error e
                  ∧ (dav_svn_has_locks repos lockdb resource w).1 = .error e))))
    -- a failing token generation
    ∧ (repos.svn_fs_generate_token w.fs = .error serr →
        fails_with (dav_svn_create_lock repos lockdb resource w).1
          500 (dav_error_id.svn serr.apr_err))
    -- a failing lookup of the lock on the path
    ∧ (∀ p, resource.info.repos_path = some p →
        check_readability repos w (some p) = .ok true →
        repos.svn_fs_get_lock_from_path w.fs p = .error serr →
        fails_with (dav_svn_remove_lock repos lockdb resource none w).1
            500 (dav_error_id.svn serr.apr_err)
        ∧ (lockdb.info.force = false →
            fails_with (dav_svn_get_locks repos lockdb resource calltype w).1
                500 (dav_error_id.svn serr.apr_err)
              ∧ fails_with (dav_svn_has_locks repos lockdb resource w).1
                500 (dav_error_id.svn serr.apr_err)))
    -- a failing lookup of the lock of a token
    ∧ (check_readability repos w resource.info.repos_path = .ok true →
        (∀ slock, repos.svn_fs_get_lock_from_token w.fs locktoken.uuid_str
              = token_lookup.failed serr slock →
            fails_with (dav_svn_find_lock repos lockdb resource locktoken partial_ok w).1
              500 (dav_error_id.svn serr.apr_err))
        ∧ (∀ slock, repos.svn_fs_get_lock_from_token w.fs ltl.locktoken.uuid_str
              = token_lookup.failed serr slock →
            fails_with (dav_svn_refresh_locks repos lockdb resource ltl new_time w).1
              500 (dav_error_id.svn serr.apr_err)))
    -- a failing attach_lock
    ∧ (check_readability repos w resource.info.repos_path = .ok true →
        (∀ slock, lock.next = none →
            dav_lock_to_svn_lock w.now lock resource.info.repos_path = .ok slock →
            (repos.svn_repos_fs_attach_lock w.fs slock lockdb.info.force
              lockdb.info.working_revnum).1 = some serr →
            fails_with (dav_svn_append_locks repos lockdb resource make_indirect lock w).1
              500 (dav_error_id.svn serr.apr_err))
        ∧ (∀ L p, repos.svn_fs_get_lock_from_token w.fs ltl.locktoken.uuid_str
              = token_lookup.found L →
            resource.info.repos_path = some p → L.path = some p →
            (repos.svn_repos_fs_attach_lock w.fs
              { L with expiration_date := wrap64 (wrap64 new_time * APR_USEC_PER_SEC) }
              true SVN_INVALID_REVNUM).1 = some serr →
            fails_with (dav_svn_refresh_locks repos lockdb resource ltl new_time w).1
              500 (dav_error_id.svn serr.apr_err)))
    -- a failing unlock
    ∧ (∀ p tok, resource.info.repos_path = some p →
        check_readability repos w (some p) = .ok true →
        ((∃ t, remove_token = some t ∧ t.uuid_str = tok)
          ∨ (remove_token = none
              ∧ ∃ L, repos.svn_fs_get_lock_from_path w.fs p = .ok (some L) ∧ L.token = tok)) →
        (repos.svn_repos_fs_unlock w.fs tok lockdb.info.force).1 = some serr →
        fails_with (dav_svn_remove_lock repos lockdb resource remove_token w).1
          500 (dav_error_id.svn serr.apr_err)) := by
  refine ⟨⟨?_, ?_, ?_, ?_, ?_, ?_, ?_, ?_⟩, ⟨?_, ?_, ?_, ?_⟩, ?_, ?_, ?_, ?_, ?_⟩
  · intro e he
    simp [parse_locktoken_error_status s e he]
  · intro e he
    simp [create_lock_error_status repos lockdb resource w e he]
  · intro e he
    rcases get_locks_error_status repos lockdb resource calltype w e he with h | h <;> simp [h]
  · intro e he
    rcases find_lock_error_status repos lockdb resource locktoken partial_ok w e he
      with h | h <;> simp [h]
  · intro e he
    rcases has_locks_error_status repos lockdb resource w e he with h | h <;> simp [h]
  · intro e he
    rcases append_locks_error_status repos lockdb resource make_indirect lock w e he
      with h | h | h | h <;> simp [h]
  · intro e he
    rcases remove_lock_error_status repos lockdb resource remove_token w e he
      with h | h | h <;> simp [h]
  · intro e he
    rcases refresh_locks_error_status repos lockdb resource ltl new_time w e he
      with h | h | h <;> simp [h]
  · exact (check_readability_of_failure repos w resource.info.repos_path serr).1
  · exact (check_readability_of_failure repos w resource.info.repos_path serr).2.1
  · exact (check_readability_of_failure repos w resource.info.repos_path serr).2.2
  · intro e he
    exact gate_error_propagates repos lockdb resource w calltype partial_ok make_indirect
      new_time locktoken remove_token ltl lock e he
  · intro hgen
    simp only [dav_svn_create_lock, hgen]
    exact fails_with_convert_err serr _
  · intro p hpath hread hlookup
    exact path_lookup_failure repos lockdb resource calltype w p serr hpath hread hlookup
  · intro hread
    have h := token_lookup_failure repos lockdb resource locktoken ltl partial_ok new_time w serr
      hread
    exact ⟨fun slock hl => h.1 slock hl hkind.2.1 hkind.2.2, h.2⟩
  · intro hread
    exact attach_failure repos lockdb resource make_indirect new_time lock ltl w serr hread
      hkind.1
  · intro p tok hpath hread htok hunlock
    exact unlock_failure repos lockdb resource remove_token w p tok serr hpath hread htok
      hkind.1 hunlock

/-- Witness for C24, with the error of the broken store and of the repository out
of reach, neither of which is one of the three kinds lock.c knows: on the
broken store `append_locks` and `remove_lock` fail with status 500, and out of
reach the gate fails with status 500 and `find_lock` returns its error. -/
theorem provider_error_statuses_witness :
    fails_with (dav_svn_append_locks broken_repos plain_lockdb resource_ab 0 dav_lock_request
        sample_world).1 500 (dav_error_id.svn (svn_errno.other 160004))
    ∧ fails_with (dav_svn_remove_lock broken_repos plain_lockdb resource_ab
        (some { uuid_str := "tok-ab" }) sample_world).1
        500 (dav_error_id.svn (svn_errno.other 160004))
    ∧ fails_with (check_readability offline_repos sample_world resource_ab.info.repos_path)
        500 (dav_error_id.svn (svn_errno.other 160029))
    ∧ fails_with (dav_svn_find_lock offline_repos plain_lockdb resource_ab
        { uuid_str := "tok-ab" } 0 sample_world).1
        500 (dav_error_id.svn (svn_errno.other 160029))
    ∧ (∀ e, (dav_svn_find_lock offline_repos plain_lockdb resource_ab
        { uuid_str := "tok-ab" } 0 sample_world).1 = .error e →
        e.status ∈ [400, 401, 403, 500]) :=
  have hbroken := provider_error_statuses broken_repos plain_lockdb resource_ab sample_world
    "opaquelocktoken:tok-ab" 0 0 0 7200 { uuid_str := "tok-ab" }
    (some { uuid_str := "tok-ab" }) { locktoken := { uuid_str := "tok-ab" }, next := [] }
    dav_lock_request { apr_err := svn_errno.other 160004, message := "corrupt" }
    ⟨by decide, by decide, by decide⟩
  have hoffline := provider_error_statuses offline_repos plain_lockdb resource_ab sample_world
    "opaquelocktoken:tok-ab" 0 0 0 7200 { uuid_str := "tok-ab" }
    (some { uuid_str := "tok-ab" }) { locktoken := { uuid_str := "tok-ab" }, next := [] }
    dav_lock_request { apr_err := svn_errno.other 160029, message := "no repository" }
    ⟨by decide, by decide, by decide⟩
  ⟨(hbroken.2.2.2.2.2.1 rfl).1 _ rfl rfl rfl,
    hbroken.2.2.2.2.2.2 "/a/b" "tok-ab" rfl rfl (Or.inl ⟨_, rfl, rfl⟩) rfl,
    hoffline.2.1.1 rfl,
    ⟨_, (hoffline.2.1.2.2.2 _ rfl).2.1, rfl, rfl⟩,
    hoffline.1.2.2.2.1⟩

end DavSvnLock
